import Mathlib

/-!
Verification development for the CastFlow POX controller module
(src/pox_version/castflow.py).

The Python module is shallowly embedded below.  Machine integers (dpids,
port numbers, IPv4 addresses, connection handles, timestamps) are modelled
as natural numbers.  Python dictionaries with unique keys are modelled as
association lists looked up by first match; Python exceptions (KeyError on
a missing dictionary key, ValueError from list.remove, NameError for an
undefined global, AttributeError from a method call on None) are modelled
with Except String.  Switch-visible side effects (packet-out and flow-mod
sends) are collected into an explicit command list.

The adjacency map (a defaultdict of defaultdicts in Python, keyed by
Router objects) is keyed here by dpid and holds only genuinely committed
entries: an auto-vivified entry of value None in Python is observationally
indistinguishable from an absent key at every use site in the module
(membership tests guard deletion, and iteration compares values against a
port number, which a None value never equals).
-/

/-- Discovery link record: (dpid1, port1, dpid2, port2), as in
pox.openflow.discovery.Link. -/
structure Link where
  dpid1 : Nat
  port1 : Nat
  dpid2 : Nat
  port2 : Nat
deriving DecidableEq, Repr

/-- The local helper flip from CastflowManager._handle_LinkEvent. -/
def flipLink (l : Link) : Link :=
  { dpid1 := l.dpid2, port1 := l.port2, dpid2 := l.dpid1, port2 := l.port1 }

/-- An OpenFlow connection: its handle identity, the dpid it reports, and
the port numbers listed in its features message. -/
structure Connection where
  handle : Nat
  dpid : Nat
  featurePorts : List Nat
deriving DecidableEq, Repr

/-- State of one Router object (class Router in castflow.py).  Host IPs
learned per port (self.connected_hosts) are an association list from port
number to IP. -/
structure Router where
  connection : Option Nat
  ports : Option (List Nat)
  igmp_ports : List Nat
  dpid : Option Nat
  listeners : Option Nat
  connected_at : Option Nat
  connected_hosts : List (Nat × Nat)
deriving DecidableEq, Repr

/-- of.OFPP_CONTROLLER (0xfffd). -/
def OFPP_CONTROLLER : Nat := 65533

/-- of.OFPP_LOCAL (0xfffe); castflow.py also hardcodes 65534 at module level. -/
def OFPP_LOCAL : Nat := 65534

/-- of.OFPP_FLOOD (0xfffb). -/
def OFPP_FLOOD : Nat := 65531

/-- A router as built by Router.__init__. -/
def newRouter : Router :=
  { connection := none, ports := none, igmp_ports := [], dpid := none,
    listeners := none, connected_at := none, connected_hosts := [] }

/-- Router.disconnect: clear the connection and listener registration if a
connection is bound. -/
def Router.disconnect (r : Router) : Router :=
  if r.connection.isSome then { r with connection := none, listeners := none } else r

/-- Router.connect: adopt the dpid on first call, assert it matches
afterwards, populate the port list and the igmp (edge-candidate) port list
once, then rebind the connection and reset the connected-at timestamp. -/
def Router.connect (r : Router) (c : Connection) (now : Nat) : Except String Router :=
  let r := if r.dpid.isNone then { r with dpid := some c.dpid } else r
  if r.dpid = some c.dpid then
    let r :=
      if r.ports.isNone then
        { r with ports := some c.featurePorts,
                 igmp_ports := r.igmp_ports ++
                   c.featurePorts.filter (fun p => !(p == OFPP_CONTROLLER || p == OFPP_LOCAL)) }
      else r
    let r := r.disconnect
    Except.ok { r with connection := some c.handle, listeners := some c.handle,
                       connected_at := some now }
  else
    Except.error "AssertionError: self.dpid == connection.dpid"

/-- FLOOD_HOLDDOWN is read by Router.is_holding_down but is defined neither
in castflow.py nor in any of its star imports (pox.lib.revent,
pox.lib.packet.igmp, pox.lib.packet.ethernet); evaluating the name raises
NameError.  The unresolved global is modelled as an absent optional value. -/
def FLOOD_HOLDDOWN : Option Nat := none

/-- Router.is_holding_down: True when never connected; otherwise compares
the elapsed time against the global FLOOD_HOLDDOWN, whose evaluation
raises NameError because the name is undefined. -/
def Router.is_holding_down (r : Router) (now : Nat) : Except String Bool :=
  match r.connected_at with
  | none => Except.ok true
  | some t =>
    match FLOOD_HOLDDOWN with
    | none => Except.error "NameError: name FLOOD_HOLDDOWN is not defined"
    | some hd => if now - t > hd then Except.ok false else Except.ok true

/-- State of the CastflowManager: the first-connection flag, the router
registry (dpid-keyed, insertion ordered), the committed adjacency map
((source dpid, destination dpid) to outgoing source port), and whether the
recurring general-query timer has been armed. -/
structure CastflowState where
  got_first_connection_up : Bool
  routers : List (Nat × Router)
  adjacency : List ((Nat × Nat) × Nat)
  queryTimerArmed : Bool
deriving DecidableEq, Repr

/-- The manager state after CastflowManager.__init__. -/
def initState : CastflowState :=
  { got_first_connection_up := false, routers := [], adjacency := [], queryTimerArmed := false }

/-- Dictionary lookup self.routers[d] / self.routers.get(d). -/
def lookup (rs : List (Nat × Router)) (d : Nat) : Option Router :=
  (rs.find? (fun ent => ent.1 == d)).map (fun ent => ent.2)

/-- In-place mutation of the Router object stored under key d. -/
def updateRouter (rs : List (Nat × Router)) (d : Nat) (f : Router → Router) :
    List (Nat × Router) :=
  rs.map (fun ent => if ent.1 == d then (ent.1, f ent.2) else ent)

/-- Committed adjacency lookup self.adjacency[a][b] (None when absent). -/
def adjGet (adj : List ((Nat × Nat) × Nat)) (a b : Nat) : Option Nat :=
  (adj.find? (fun ent => ent.1.1 == a && ent.1.2 == b)).map (fun ent => ent.2)

/-- Assignment self.adjacency[a][b] = p. -/
def adjSet (adj : List ((Nat × Nat) × Nat)) (a b p : Nat) : List ((Nat × Nat) × Nat) :=
  if (adj.find? (fun ent => ent.1.1 == a && ent.1.2 == b)).isSome then
    adj.map (fun ent => if ent.1.1 == a && ent.1.2 == b then ((a, b), p) else ent)
  else
    adj ++ [((a, b), p)]

/-- Guarded deletion: if b in self.adjacency[a]: del self.adjacency[a][b]. -/
def adjDel (adj : List ((Nat × Nat) × Nat)) (a b : Nat) : List ((Nat × Nat) × Nat) :=
  adj.filter (fun ent => !(ent.1.1 == a && ent.1.2 == b))

/-- Host-table lookup by port (key membership of self.connected_hosts). -/
def hostsGet (hs : List (Nat × Nat)) (p : Nat) : Option Nat :=
  (hs.find? (fun ent => ent.1 == p)).map (fun ent => ent.2)

/-- Deletion del self.connected_hosts[p]. -/
def hostsDel (hs : List (Nat × Nat)) (p : Nat) : List (Nat × Nat) :=
  hs.filter (fun ent => !(ent.1 == p))

/-- Python list.remove: drop the first occurrence, ValueError when absent. -/
def listRemove (xs : List Nat) (x : Nat) : Except String (List Nat) :=
  if x ∈ xs then Except.ok (xs.erase x) else Except.error "ValueError: list.remove(x): x not in list"

/-- Mutate the Router registered under d (the key is known to be present at
every use site below). -/
def modifyRouter (s : CastflowState) (d : Nat) (f : Router → Router) : CastflowState :=
  { s with routers := updateRouter s.routers d f }

/-- router.igmp_ports.remove(p) on the router registered under d. -/
def removePortE (s : CastflowState) (d : Nat) (p : Nat) : Except String CastflowState :=
  match lookup s.routers d with
  | none => Except.error "KeyError: router not in registry"
  | some r =>
    match listRemove r.igmp_ports p with
    | Except.error e => Except.error e
    | Except.ok ps => Except.ok (modifyRouter s d (fun r' => { r' with igmp_ports := ps }))

/-- The IGMP general-query payload built by launch_igmp_general_query,
together with its IPv4 and Ethernet encapsulation fields. -/
structure QueryMsg where
  ver_and_type : Nat
  max_response_time : Nat
  address : Nat
  qrv : Nat
  qqic : Nat
  dlen : Nat
  ip_ttl : Nat
  ip_protocol : Nat
  ip_tos : Nat
  ip_dstip : Nat
  eth_dst : Nat
  eth_type : Nat
deriving DecidableEq, Repr

/-- A switch command sent over a connection: a packet-out (with optional
buffer id and input port, an action list of output ports, and either the
triggering packet's own data (none) or a freshly built query message), or
a flow-mod matching (dl_type, nw_dst, in_port) with output actions. -/
inductive Command where
  | packetOut (conn : Nat) (bufferId : Option Nat) (inPort : Option Nat)
      (actions : List Nat) (data : Option QueryMsg)
  | flowMod (conn : Nat) (dlType : Nat) (nwDst : Nat) (inPort : Nat) (actions : List Nat)
deriving DecidableEq, Repr

/-- MEMBERSHIP_QUERY = 0x11 from pox.lib.packet.igmp. -/
def MEMBERSHIP_QUERY : Nat := 17

/-- IGMP_PROTOCOL = 2 from pox.lib.packet.igmp. -/
def IGMP_PROTOCOL : Nat := 2

/-- IGMP_V3_ALL_SYSTEMS_ADDRESS = IPAddr("224.0.0.1"), the all-systems
multicast group, from pox.lib.packet.igmp. -/
def IGMP_V3_ALL_SYSTEMS_ADDRESS : Nat := 224 * 2 ^ 24 + 1

/-- The all-multicast-routers well-known address 224.0.0.2 (RFC 3376).
Modelled from the spec: named by the specification as the intended query
destination; it appears nowhere in the code. -/
def ALL_MULTICAST_ROUTERS_ADDRESS : Nat := 224 * 2 ^ 24 + 2

/-- ETHER_BROADCAST = ff:ff:ff:ff:ff:ff from pox.lib.packet.ethernet. -/
def ETHER_BROADCAST : Nat := 2 ^ 48 - 1

/-- self.igmp_robustness = 2. -/
def igmp_robustness : Nat := 2

/-- self.igmp_query_interval: set to 125, then overridden to 20 for
debugging; 20 is the value every later read observes. -/
def igmp_query_interval : Nat := 20

/-- self.igmp_query_response_interval = 100 (tenths of a second). -/
def igmp_query_response_interval : Nat := 100

/-- The single general-query message built by launch_igmp_general_query
(igmp payload, ipv4 encapsulation with ttl 1, protocol IGMP, ToS 0xc0,
destination the all-systems address, broadcast ethernet of IP ethertype). -/
def generalQueryMsg : QueryMsg :=
  { ver_and_type := MEMBERSHIP_QUERY
    max_response_time := igmp_query_response_interval
    address := 0
    qrv := igmp_robustness
    qqic := igmp_query_interval
    dlen := 12
    ip_ttl := 1
    ip_protocol := IGMP_PROTOCOL
    ip_tos := 192
    ip_dstip := IGMP_V3_ALL_SYSTEMS_ADDRESS
    eth_dst := ETHER_BROADCAST
    eth_type := 2048 }

/-- Per-router sends of the general query: one packet-out per igmp port on
the router's connection; sending on a disconnected router's None
connection raises AttributeError. -/
def routerQuerySends (r : Router) : Except String (List Command) :=
  match r.connection with
  | none => Except.error "AttributeError: NoneType object has no attribute send"
  | some c =>
    Except.ok (r.igmp_ports.map (fun p => Command.packetOut c none none [p] (some generalQueryMsg)))

/-- Iteration of launch_igmp_general_query over the router registry. -/
def launchQueryAux : List (Nat × Router) → Except String (List Command)
  | [] => Except.ok []
  | ent :: rest =>
    match routerQuerySends ent.2 with
    | Except.error e => Except.error e
    | Except.ok cs =>
      match launchQueryAux rest with
      | Except.error e => Except.error e
      | Except.ok more => Except.ok (cs ++ more)

/-- CastflowManager.launch_igmp_general_query: build the query and send it
out of every igmp port of every registered router. -/
def launchGeneralQuery (s : CastflowState) : Except String (List Command) :=
  launchQueryAux s.routers

/-- CastflowManager._handle_ConnectionUp. -/
def handleConnectionUp (s : CastflowState) (c : Connection) (now : Nat) :
    Except String CastflowState :=
  let afterReg : Except String CastflowState :=
    match lookup s.routers c.dpid with
    | none =>
      let r := { newRouter with dpid := some c.dpid }
      let s1 := { s with routers := s.routers ++ [(c.dpid, r)] }
      match r.connect c now with
      | Except.error e => Except.error e
      | Except.ok r' =>
        Except.ok { s1 with routers := updateRouter s1.routers c.dpid (fun _ => r') }
    | some _ => Except.ok s
  match afterReg with
  | Except.error e => Except.error e
  | Except.ok s2 =>
    if !s2.got_first_connection_up then
      Except.ok { s2 with got_first_connection_up := true, queryTimerArmed := true }
    else
      Except.ok s2

/-- CastflowManager._handle_ConnectionDown: drop the router from the
registry when present, otherwise only log a warning. -/
def handleConnectionDown (s : CastflowState) (dpid : Nat) : CastflowState :=
  match lookup s.routers dpid with
  | none => s
  | some _ => { s with routers := s.routers.filter (fun ent => !(ent.1 == dpid)) }

/-- A LinkEvent from openflow.discovery: the reported link and whether it
was removed (event.removed; event.added is its negation). -/
structure LinkEvent where
  link : Link
  removed : Bool
deriving DecidableEq, Repr

/-- The rescan for a parallel link in the removal branch: the first raw
discovery link between the same ordered router pair whose flipped
counterpart is also currently reported. -/
def parallelScan (disc : List Link) (l : Link) : Option Link :=
  disc.find? (fun ll => ll.dpid1 == l.dpid1 && ll.dpid2 == l.dpid2 && decide (flipLink ll ∈ disc))

/-- The shared four-statement commit sequence of _handle_LinkEvent: set
adjacency[d1][d2] = p1, remove p1 from d1's igmp ports, set
adjacency[d2][d1] = p2, remove p2 from d2's igmp ports.  It appears once
in the parallel-link promotion and once in the bidirectional-add branch. -/
def commitLink (s : CastflowState) (d1 p1 d2 p2 : Nat) : Except String CastflowState :=
  let s := { s with adjacency := adjSet s.adjacency d1 d2 p1 }
  match removePortE s d1 p1 with
  | Except.error e => Except.error e
  | Except.ok s =>
    let s := { s with adjacency := adjSet s.adjacency d2 d1 p2 }
    match removePortE s d2 p2 with
    | Except.error e => Except.error e
    | Except.ok s => Except.ok s

/-- CastflowManager._handle_LinkEvent.  The current raw discovery link set
(core.openflow_discovery.adjacency) is an input read at handling time.
Both registry lookups at the top are unguarded in the Python and raise
KeyError for an unregistered dpid. -/
def handleLinkEvent (s : CastflowState) (ev : LinkEvent) (disc : List Link) :
    Except String CastflowState :=
  let l := ev.link
  if (lookup s.routers l.dpid1).isNone then
    Except.error "KeyError: l.dpid1 not in self.routers"
  else if (lookup s.routers l.dpid2).isNone then
    Except.error "KeyError: l.dpid2 not in self.routers"
  else if ev.removed then
    let s := { s with adjacency := adjDel (adjDel s.adjacency l.dpid1 l.dpid2) l.dpid2 l.dpid1 }
    let s := modifyRouter s l.dpid1 (fun r => { r with igmp_ports := r.igmp_ports ++ [l.port1] })
    let s := modifyRouter s l.dpid2 (fun r => { r with igmp_ports := r.igmp_ports ++ [l.port2] })
    match parallelScan disc l with
    | none => Except.ok s
    | some ll => commitLink s l.dpid1 ll.port1 l.dpid2 ll.port2
  else
    if (adjGet s.adjacency l.dpid1 l.dpid2).isNone then
      if flipLink l ∈ disc then
        match commitLink s l.dpid1 l.port1 l.dpid2 l.port2 with
        | Except.error e => Except.error e
        | Except.ok s =>
          let s := modifyRouter s l.dpid1 (fun r =>
            if (hostsGet r.connected_hosts l.port1).isSome then
              { r with connected_hosts := hostsDel r.connected_hosts l.port1 }
            else r)
          let s := modifyRouter s l.dpid2 (fun r =>
            if (hostsGet r.connected_hosts l.port2).isSome then
              { r with connected_hosts := hostsDel r.connected_hosts l.port2 }
            else r)
          Except.ok s
      else
        Except.ok s
    else
      Except.ok s

/-- The parsed IPv4 layer of a packet-in, with a flag recording whether an
IGMP layer is nested inside it (in the POX packet parser an igmp payload
only ever occurs inside an ipv4 layer). -/
structure Ipv4Packet where
  srcip : Nat
  dstip : Nat
  igmp : Bool
deriving DecidableEq, Repr

/-- An OpenFlow PacketIn event: the connection it arrived on, that
connection's dpid, the input port, the buffer id of event.ofp, and the
parse result. -/
structure PacketInEvent where
  conn : Nat
  dpid : Nat
  port : Nat
  bufferId : Nat
  ipv4 : Option Ipv4Packet
deriving DecidableEq, Repr

/-- CastflowManager.drop_packet: a packet-out echoing the event's buffer
and input port with an empty action list. -/
def dropPacketMsg (e : PacketInEvent) : Command :=
  Command.packetOut e.conn (some e.bufferId) (some e.port) [] none

/-- Membership of the committed adjacency iteration test: some neighbour
of dpid d is reached over port p (the loop over self.adjacency[router]
comparing each stored port with event.port). -/
def adjacencyHasPort (adj : List ((Nat × Nat) × Nat)) (d p : Nat) : Bool :=
  adj.any (fun ent => ent.1.1 == d && ent.2 == p)

/-- IPAddr.inNetwork("224.0.0.0/4") on a 32-bit address. -/
def inMulticastRange (ip : Nat) : Bool :=
  ip / 2 ^ 28 == 14

/-- CastflowManager._handle_PacketIn, returning the updated manager state
and the commands sent. -/
def handlePacketIn (s : CastflowState) (e : PacketInEvent) : CastflowState × List Command :=
  match lookup s.routers e.dpid with
  | none => (s, [])
  | some r =>
    match e.ipv4 with
    | none => (s, [])
    | some v4 =>
      if v4.igmp then
        if adjacencyHasPort s.adjacency e.dpid e.port then
          (s, [dropPacketMsg e])
        else
          let s' :=
            if (hostsGet r.connected_hosts e.port).isNone then
              modifyRouter s e.dpid (fun r' =>
                { r' with connected_hosts := r'.connected_hosts ++ [(e.port, v4.srcip)] })
            else s
          (s', [dropPacketMsg e])
      else
        if inMulticastRange v4.dstip then
          let fromNeighbour := adjacencyHasPort s.adjacency e.dpid e.port
          let s' :=
            if !fromNeighbour && (hostsGet r.connected_hosts e.port).isNone then
              modifyRouter s e.dpid (fun r' =>
                { r' with connected_hosts := r'.connected_hosts ++ [(e.port, v4.srcip)] })
            else s
          (s', [Command.packetOut e.conn (some e.bufferId) (some e.port) [OFPP_FLOOD] none,
                Command.flowMod e.conn 2048 v4.dstip e.port [OFPP_FLOOD]])
        else
          (s, [])

/-! ### Association-list lemmas -/

theorem lookup_nil (d : Nat) : lookup [] d = none := rfl

theorem lookup_cons (ent : Nat × Router) (rs : List (Nat × Router)) (d : Nat) :
    lookup (ent :: rs) d = if ent.1 = d then some ent.2 else lookup rs d := by
  by_cases h : ent.1 = d <;> simp [lookup, List.find?_cons, h]

theorem lookup_append (rs : List (Nat × Router)) (d0 : Nat) (r0 : Router) (d : Nat) :
    lookup (rs ++ [(d0, r0)]) d =
      match lookup rs d with
      | some r => some r
      | none => if d0 = d then some r0 else none := by
  induction rs with
  | nil => by_cases h : d0 = d <;> simp [lookup, List.find?_cons, h]
  | cons ent rest ih =>
    by_cases h : ent.1 = d
    · simp [lookup_cons, h, List.cons_append]
    · simpa [lookup_cons, h, List.cons_append] using ih

theorem lookup_cons_pair (k : Nat) (r : Router) (rs : List (Nat × Router)) (d : Nat) :
    lookup ((k, r) :: rs) d = if k = d then some r else lookup rs d :=
  lookup_cons (k, r) rs d

theorem lookup_updateRouter_self (rs : List (Nat × Router)) (d : Nat) (f : Router → Router) :
    lookup (updateRouter rs d f) d = (lookup rs d).map f := by
  induction rs with
  | nil => rfl
  | cons ent rest ih =>
    by_cases h : ent.1 = d
    · simp [updateRouter, lookup_cons, h]
    · simpa [updateRouter, lookup_cons, h] using ih

theorem lookup_updateRouter_ne (rs : List (Nat × Router)) (d : Nat) (f : Router → Router)
    (d' : Nat) (h : d' ≠ d) : lookup (updateRouter rs d f) d' = lookup rs d' := by
  induction rs with
  | nil => rfl
  | cons ent rest ih =>
    simp only [updateRouter, List.map_cons] at ih ⊢
    by_cases h1 : ent.1 = d
    · have h2 : ent.1 ≠ d' := fun h3 => h (h3.symm.trans h1)
      rw [if_pos (by simp [h1]), lookup_cons_pair, lookup_cons, if_neg h2, if_neg h2]
      exact ih
    · rw [if_neg (by simp [h1]), lookup_cons, lookup_cons]
      by_cases h2 : ent.1 = d'
      · simp [h2]
      · rw [if_neg h2, if_neg h2]
        exact ih

theorem lookup_filter_ne (rs : List (Nat × Router)) (d d' : Nat) (h : d' ≠ d) :
    lookup (rs.filter (fun ent => !(ent.1 == d))) d' = lookup rs d' := by
  induction rs with
  | nil => rfl
  | cons ent rest ih =>
    simp only [List.filter_cons] at ih ⊢
    by_cases h1 : ent.1 = d
    · have h2 : ent.1 ≠ d' := fun h3 => h (h3.symm.trans h1)
      rw [if_neg (by simp [h1]), lookup_cons, if_neg h2]
      exact ih
    · rw [if_pos (by simp [h1]), lookup_cons, lookup_cons]
      by_cases h2 : ent.1 = d'
      · simp [h2]
      · rw [if_neg h2, if_neg h2]
        exact ih

theorem lookup_filter_self (rs : List (Nat × Router)) (d : Nat) :
    lookup (rs.filter (fun ent => !(ent.1 == d))) d = none := by
  induction rs with
  | nil => rfl
  | cons ent rest ih =>
    by_cases h1 : ent.1 = d
    · simp [List.filter_cons, h1, ih]
    · simp [List.filter_cons, h1, lookup_cons, ih]

theorem adjGet_nil (a b : Nat) : adjGet [] a b = none := rfl

theorem adjGet_cons (ent : (Nat × Nat) × Nat) (adj : List ((Nat × Nat) × Nat)) (a b : Nat) :
    adjGet (ent :: adj) a b =
      if ent.1.1 = a ∧ ent.1.2 = b then some ent.2 else adjGet adj a b := by
  by_cases h1 : ent.1.1 = a <;> by_cases h2 : ent.1.2 = b <;>
    simp [adjGet, List.find?_cons, h1, h2]

theorem adjGet_adjDel_self (adj : List ((Nat × Nat) × Nat)) (a b : Nat) :
    adjGet (adjDel adj a b) a b = none := by
  induction adj with
  | nil => rfl
  | cons ent rest ih =>
    by_cases h1 : ent.1.1 = a <;> by_cases h2 : ent.1.2 = b <;>
      simp [adjDel, List.filter_cons, h1, h2, adjGet_cons, ih] <;>
      simpa [adjDel] using ih

theorem adjGet_adjDel_ne (adj : List ((Nat × Nat) × Nat)) (a b c d : Nat)
    (h : ¬(c = a ∧ d = b)) : adjGet (adjDel adj a b) c d = adjGet adj c d := by
  induction adj with
  | nil => rfl
  | cons ent rest ih =>
    simp only [adjDel, List.filter_cons] at ih ⊢
    by_cases h1 : ent.1.1 = a ∧ ent.1.2 = b
    · have h2 : ¬(ent.1.1 = c ∧ ent.1.2 = d) := by
        rintro ⟨hc, hd⟩
        exact h ⟨hc.symm.trans h1.1, hd.symm.trans h1.2⟩
      rw [if_neg (by simp [h1.1, h1.2]), adjGet_cons, if_neg h2]
      exact ih
    · have hkeep : (!(ent.1.1 == a && ent.1.2 == b)) = true := by
        have : ¬ent.1.1 = a ∨ ¬ent.1.2 = b := by tauto
        rcases this with h1' | h1' <;> simp [h1']
      rw [if_pos hkeep, adjGet_cons, adjGet_cons]
      by_cases h2 : ent.1.1 = c ∧ ent.1.2 = d
      · simp [h2]
      · rw [if_neg h2, if_neg h2]
        exact ih

theorem adjGet_cons_pair (a0 b0 p0 : Nat) (adj : List ((Nat × Nat) × Nat)) (a b : Nat) :
    adjGet (((a0, b0), p0) :: adj) a b =
      if a0 = a ∧ b0 = b then some p0 else adjGet adj a b :=
  adjGet_cons ((a0, b0), p0) adj a b

theorem adjGet_append_single (adj : List ((Nat × Nat) × Nat)) (a0 b0 p0 a b : Nat) :
    adjGet (adj ++ [((a0, b0), p0)]) a b =
      match adjGet adj a b with
      | some p => some p
      | none => if a0 = a ∧ b0 = b then some p0 else none := by
  induction adj with
  | nil => by_cases h : a0 = a ∧ b0 = b <;> simp [adjGet_cons_pair, h, adjGet_nil]
  | cons ent rest ih =>
    by_cases h : ent.1.1 = a ∧ ent.1.2 = b
    · simp [List.cons_append, adjGet_cons, h]
    · simpa [List.cons_append, adjGet_cons, h] using ih

theorem adjGet_mapSet_self (adj : List ((Nat × Nat) × Nat)) (a b p : Nat)
    (h : (adjGet adj a b).isSome) :
    adjGet (adj.map (fun ent => if ent.1.1 == a && ent.1.2 == b then ((a, b), p) else ent)) a b
      = some p := by
  induction adj with
  | nil => simp [adjGet_nil] at h
  | cons ent rest ih =>
    by_cases h1 : ent.1.1 = a ∧ ent.1.2 = b
    · rw [List.map_cons, if_pos (by simp [h1.1, h1.2]), adjGet_cons_pair, if_pos ⟨rfl, rfl⟩]
    · rw [adjGet_cons, if_neg h1] at h
      rw [List.map_cons, if_neg (by simp; tauto), adjGet_cons, if_neg h1]
      exact ih h

theorem adjGet_mapSet_ne (adj : List ((Nat × Nat) × Nat)) (a b p c d : Nat)
    (h : ¬(c = a ∧ d = b)) :
    adjGet (adj.map (fun ent => if ent.1.1 == a && ent.1.2 == b then ((a, b), p) else ent)) c d
      = adjGet adj c d := by
  induction adj with
  | nil => rfl
  | cons ent rest ih =>
    by_cases h1 : ent.1.1 = a ∧ ent.1.2 = b
    · have h2 : ¬(ent.1.1 = c ∧ ent.1.2 = d) := by
        rintro ⟨hc, hd⟩
        exact h ⟨hc.symm.trans h1.1, hd.symm.trans h1.2⟩
      rw [List.map_cons, if_pos (by simp [h1.1, h1.2]), adjGet_cons_pair,
        if_neg (by tauto), adjGet_cons, if_neg h2]
      exact ih
    · rw [List.map_cons, if_neg (by simp; tauto), adjGet_cons, adjGet_cons]
      by_cases h2 : ent.1.1 = c ∧ ent.1.2 = d
      · simp [h2]
      · rw [if_neg h2, if_neg h2]
        exact ih

theorem adjGet_isSome_find (adj : List ((Nat × Nat) × Nat)) (a b : Nat) :
    (adj.find? (fun ent => ent.1.1 == a && ent.1.2 == b)).isSome = (adjGet adj a b).isSome := by
  simp [adjGet]

theorem adjGet_adjSet_self (adj : List ((Nat × Nat) × Nat)) (a b p : Nat) :
    adjGet (adjSet adj a b p) a b = some p := by
  unfold adjSet
  by_cases h : (adjGet adj a b).isSome
  · rw [if_pos (by rw [adjGet_isSome_find]; exact h)]
    exact adjGet_mapSet_self adj a b p h
  · rw [if_neg (by rw [adjGet_isSome_find]; exact h)]
    rw [adjGet_append_single]
    rcases h0 : adjGet adj a b with _ | p0
    · simp
    · rw [h0] at h
      simp at h
theorem adjGet_adjSet_ne (adj : List ((Nat × Nat) × Nat)) (a b p c d : Nat)
    (h : ¬(c = a ∧ d = b)) : adjGet (adjSet adj a b p) c d = adjGet adj c d := by
  unfold adjSet
  by_cases h0 : (adj.find? (fun ent => ent.1.1 == a && ent.1.2 == b)).isSome
  · rw [if_pos h0]
    exact adjGet_mapSet_ne adj a b p c d h
  · rw [if_neg h0, adjGet_append_single]
    rcases h1 : adjGet adj c d with _ | p0 <;> simp [h1]
    intro hc hd
    exact absurd ⟨hc.symm, hd.symm⟩ h

/-! ### Specification lemmas for the shared helpers -/

theorem removePortE_ok (s : CastflowState) (d p : Nat) (r : Router)
    (hr : lookup s.routers d = some r) (hp : p ∈ r.igmp_ports) :
    removePortE s d p =
      Except.ok (modifyRouter s d (fun r' => { r' with igmp_ports := r.igmp_ports.erase p })) := by
  simp [removePortE, hr, listRemove, hp]

theorem commitLink_ok (s : CastflowState) (d1 p1 d2 p2 : Nat) (r1 r2 : Router)
    (h12 : d1 ≠ d2)
    (h1 : lookup s.routers d1 = some r1) (h2 : lookup s.routers d2 = some r2)
    (hp1 : p1 ∈ r1.igmp_ports) (hp2 : p2 ∈ r2.igmp_ports) :
    commitLink s d1 p1 d2 p2 =
      Except.ok
        { s with
          adjacency := adjSet (adjSet s.adjacency d1 d2 p1) d2 d1 p2,
          routers :=
            updateRouter
              (updateRouter s.routers d1
                (fun r' => { r' with igmp_ports := r1.igmp_ports.erase p1 }))
              d2 (fun r' => { r' with igmp_ports := r2.igmp_ports.erase p2 }) } := by
  have hl2 : lookup (updateRouter s.routers d1
      (fun r' => { r' with igmp_ports := r1.igmp_ports.erase p1 })) d2 = some r2 := by
    rw [lookup_updateRouter_ne _ _ _ _ (Ne.symm h12)]
    exact h2
  rw [commitLink]
  rw [removePortE_ok { s with adjacency := adjSet s.adjacency d1 d2 p1 } d1 p1 r1 h1 hp1]
  dsimp only [modifyRouter]
  rw [removePortE_ok _ d2 p2 r2 hl2 hp2]
  dsimp only [modifyRouter]

/-! ### Claim C6: IGMP packet on a committed inter-router port -/

/-- C6: an IGMP packet-in arriving on a port that is the committed
adjacency port towards some neighbour of the receiving (known) router is
answered with a single drop (a packet-out carrying an empty action list)
and the manager state is left completely unchanged; in particular no
connected-host entry is created. -/
theorem C6_igmp_on_router_port_dropped_no_state_change
    (s : CastflowState) (e : PacketInEvent) (r : Router) (v4 : Ipv4Packet)
    (hr : lookup s.routers e.dpid = some r)
    (hv : e.ipv4 = some v4)
    (hig : v4.igmp = true)
    (hport : adjacencyHasPort s.adjacency e.dpid e.port = true) :
    handlePacketIn s e =
      (s, [Command.packetOut e.conn (some e.bufferId) (some e.port) [] none]) := by
  simp [handlePacketIn, hr, hv, hig, hport, dropPacketMsg]

/-- Witness for C6 at a concrete state: router 1 with committed adjacency
towards router 2 over port 1 receives an IGMP packet on port 1. -/
theorem C6_igmp_on_router_port_dropped_no_state_change_witness :
    handlePacketIn
      { got_first_connection_up := true,
        routers := [(1, { connection := some 7, ports := some [1, 2], igmp_ports := [2],
                          dpid := some 1, listeners := some 7, connected_at := some 100,
                          connected_hosts := [] })],
        adjacency := [((1, 2), 1), ((2, 1), 1)], queryTimerArmed := true }
      { conn := 7, dpid := 1, port := 1, bufferId := 42,
        ipv4 := some { srcip := 167772165, dstip := 3758096385, igmp := true } } =
      ({ got_first_connection_up := true,
         routers := [(1, { connection := some 7, ports := some [1, 2], igmp_ports := [2],
                           dpid := some 1, listeners := some 7, connected_at := some 100,
                           connected_hosts := [] })],
         adjacency := [((1, 2), 1), ((2, 1), 1)], queryTimerArmed := true },
       [Command.packetOut 7 (some 42) (some 1) [] none]) :=
  C6_igmp_on_router_port_dropped_no_state_change _ _ _ _ rfl rfl rfl (by decide)

/-! ### Claim C7: IGMP packet on a non-router port from an unknown source -/

/-- C7: an IGMP packet-in arriving at a known router on a port that is not
any committed adjacency port, when the port has no connected-host entry
yet, records exactly one new connected-host entry (that port mapped to the
packet's IPv4 source) and answers with a single drop; no flow-mod is sent,
all other routers and the adjacency map are untouched. -/
theorem C7_igmp_on_host_port_learns_and_drops
    (s : CastflowState) (e : PacketInEvent) (r : Router) (v4 : Ipv4Packet)
    (hr : lookup s.routers e.dpid = some r)
    (hv : e.ipv4 = some v4)
    (hig : v4.igmp = true)
    (hport : adjacencyHasPort s.adjacency e.dpid e.port = false)
    (hh : hostsGet r.connected_hosts e.port = none) :
    (handlePacketIn s e).2 = [Command.packetOut e.conn (some e.bufferId) (some e.port) [] none] ∧
    lookup (handlePacketIn s e).1.routers e.dpid =
      some { r with connected_hosts := r.connected_hosts ++ [(e.port, v4.srcip)] } ∧
    (∀ d', d' ≠ e.dpid → lookup (handlePacketIn s e).1.routers d' = lookup s.routers d') ∧
    (handlePacketIn s e).1.adjacency = s.adjacency := by
  refine ⟨?_, ?_, ?_, ?_⟩
  · simp [handlePacketIn, hr, hv, hig, hport, hh, dropPacketMsg]
  · simp [handlePacketIn, hr, hv, hig, hport, hh, modifyRouter, lookup_updateRouter_self]
  · intro d' hd'
    simp [handlePacketIn, hr, hv, hig, hport, hh, modifyRouter, lookup_updateRouter_ne _ _ _ _ hd']
  · simp [handlePacketIn, hr, hv, hig, hport, hh, modifyRouter]

/-- Witness for C7 at a concrete state: router 1 with no adjacencies
receives an IGMP packet from 10.0.0.5 on port 3. -/
theorem C7_igmp_on_host_port_learns_and_drops_witness :
    (handlePacketIn
        { got_first_connection_up := true,
          routers := [(1, { connection := some 7, ports := some [3], igmp_ports := [3],
                            dpid := some 1, listeners := some 7, connected_at := some 100,
                            connected_hosts := [] })],
          adjacency := [], queryTimerArmed := true }
        { conn := 7, dpid := 1, port := 3, bufferId := 42,
          ipv4 := some { srcip := 167772165, dstip := 3758096385, igmp := true } }).2 =
      [Command.packetOut 7 (some 42) (some 3) [] none] ∧
    lookup (handlePacketIn
        { got_first_connection_up := true,
          routers := [(1, { connection := some 7, ports := some [3], igmp_ports := [3],
                            dpid := some 1, listeners := some 7, connected_at := some 100,
                            connected_hosts := [] })],
          adjacency := [], queryTimerArmed := true }
        { conn := 7, dpid := 1, port := 3, bufferId := 42,
          ipv4 := some { srcip := 167772165, dstip := 3758096385, igmp := true } }).1.routers 1 =
      some { connection := some 7, ports := some [3], igmp_ports := [3],
             dpid := some 1, listeners := some 7, connected_at := some 100,
             connected_hosts := [(3, 167772165)] } := by
  have h := C7_igmp_on_host_port_learns_and_drops
    { got_first_connection_up := true,
      routers := [(1, { connection := some 7, ports := some [3], igmp_ports := [3],
                        dpid := some 1, listeners := some 7, connected_at := some 100,
                        connected_hosts := [] })],
      adjacency := [], queryTimerArmed := true }
    { conn := 7, dpid := 1, port := 3, bufferId := 42,
      ipv4 := some { srcip := 167772165, dstip := 3758096385, igmp := true } }
    { connection := some 7, ports := some [3], igmp_ports := [3],
      dpid := some 1, listeners := some 7, connected_at := some 100, connected_hosts := [] }
    { srcip := 167772165, dstip := 3758096385, igmp := true }
    rfl rfl rfl (by decide) rfl
  exact ⟨h.1, h.2.1⟩

/-! ### Claim C10: plain IPv4 multicast arriving on an inter-router port -/

/-- C10: a non-IGMP IPv4 packet-in with a destination inside 224.0.0.0/4
arriving at a known router on a committed inter-router adjacency port is
still flooded (packet-out with the flood pseudo-port) and still installs a
flood flow rule matching (ethertype 0x800, the destination address, the
input port); the state is unchanged, so only host learning is
suppressed for such ports. -/
theorem C10_multicast_on_router_port_still_floods
    (s : CastflowState) (e : PacketInEvent) (r : Router) (v4 : Ipv4Packet)
    (hr : lookup s.routers e.dpid = some r)
    (hv : e.ipv4 = some v4)
    (hig : v4.igmp = false)
    (hmc : inMulticastRange v4.dstip = true)
    (hport : adjacencyHasPort s.adjacency e.dpid e.port = true) :
    handlePacketIn s e =
      (s, [Command.packetOut e.conn (some e.bufferId) (some e.port) [OFPP_FLOOD] none,
           Command.flowMod e.conn 2048 v4.dstip e.port [OFPP_FLOOD]]) := by
  simp [handlePacketIn, hr, hv, hig, hmc, hport]

/-- Witness for C10 at a concrete state: a multicast UDP packet to
224.1.1.1 arrives on router 1's committed inter-router port 1. -/
theorem C10_multicast_on_router_port_still_floods_witness :
    handlePacketIn
      { got_first_connection_up := true,
        routers := [(1, { connection := some 7, ports := some [1, 2], igmp_ports := [2],
                          dpid := some 1, listeners := some 7, connected_at := some 100,
                          connected_hosts := [] })],
        adjacency := [((1, 2), 1), ((2, 1), 1)], queryTimerArmed := true }
      { conn := 7, dpid := 1, port := 1, bufferId := 42,
        ipv4 := some { srcip := 167772165, dstip := 3758162177, igmp := false } } =
      ({ got_first_connection_up := true,
         routers := [(1, { connection := some 7, ports := some [1, 2], igmp_ports := [2],
                           dpid := some 1, listeners := some 7, connected_at := some 100,
                           connected_hosts := [] })],
         adjacency := [((1, 2), 1), ((2, 1), 1)], queryTimerArmed := true },
       [Command.packetOut 7 (some 42) (some 1) [OFPP_FLOOD] none,
        Command.flowMod 7 2048 3758162177 1 [OFPP_FLOOD]]) :=
  C10_multicast_on_router_port_still_floods
    { got_first_connection_up := true,
      routers := [(1, { connection := some 7, ports := some [1, 2], igmp_ports := [2],
                        dpid := some 1, listeners := some 7, connected_at := some 100,
                        connected_hosts := [] })],
      adjacency := [((1, 2), 1), ((2, 1), 1)], queryTimerArmed := true }
    { conn := 7, dpid := 1, port := 1, bufferId := 42,
      ipv4 := some { srcip := 167772165, dstip := 3758162177, igmp := false } }
    { connection := some 7, ports := some [1, 2], igmp_ports := [2],
      dpid := some 1, listeners := some 7, connected_at := some 100, connected_hosts := [] }
    { srcip := 167772165, dstip := 3758162177, igmp := false }
    rfl rfl rfl (by decide) (by decide)

/-! ### Claim C1: connection-up for an already-registered identifier -/

/-- C1 evaluation: a connection-up for dpid 1, which is already registered
with connection handle 7 and connected-at 100, delivered with a new
connection handle 8 at time 200, leaves the whole manager state unchanged:
the transport handle is NOT re-bound and the connected-at timestamp is NOT
reset (router.connect is only invoked on the branch that creates a new
Router).  The host table and igmp port set are (trivially) preserved. -/
theorem C1_connection_up_known_dpid_is_noop :
    handleConnectionUp
      { got_first_connection_up := true,
        routers := [(1, { connection := some 7, ports := some [1, 2], igmp_ports := [1, 2],
                          dpid := some 1, listeners := some 7, connected_at := some 100,
                          connected_hosts := [(2, 555)] })],
        adjacency := [], queryTimerArmed := true }
      { handle := 8, dpid := 1, featurePorts := [1, 2] } 200 =
      Except.ok
        { got_first_connection_up := true,
          routers := [(1, { connection := some 7, ports := some [1, 2], igmp_ports := [1, 2],
                            dpid := some 1, listeners := some 7, connected_at := some 100,
                            connected_hosts := [(2, 555)] })],
          adjacency := [], queryTimerArmed := true } := rfl

/-! ### Claim C9: the hold-down query -/

/-- C9 evaluation: is_holding_down returns True without fault for a router
that never connected, but raises NameError (the module-level constant
FLOOD_HOLDDOWN referenced by the comparison is never defined) for any
router that has connected. -/
theorem C9_is_holding_down_raises_after_connect :
    Router.is_holding_down
      { connection := none, ports := none, igmp_ports := [], dpid := some 1,
        listeners := none, connected_at := none, connected_hosts := [] } 1000 =
      Except.ok true ∧
    Router.is_holding_down
      { connection := some 7, ports := some [1, 2], igmp_ports := [1, 2], dpid := some 1,
        listeners := some 7, connected_at := some 100, connected_hosts := [] } 1000 =
      Except.error "NameError: name FLOOD_HOLDDOWN is not defined" :=
  ⟨rfl, rfl⟩

/-! ### Claim C2: fault behaviour of the event handlers -/

/-- C2 counterexample: a link event whose first endpoint dpid (1) is not in
the (empty) router registry is not absorbed: the handler raises the
unguarded registry lookup fault rather than ignoring the event. -/
theorem C2_counterexample_link_event_unknown_router_faults :
    handleLinkEvent initState
      { link := { dpid1 := 1, port1 := 1, dpid2 := 2, port2 := 2 }, removed := false } [] =
      Except.error "KeyError: l.dpid1 not in self.routers" := rfl

/-- Helper: Router.connect always succeeds on the freshly built Router of
the new-router branch of the connection-up handler. -/
theorem connect_fresh_ok (c : Connection) (now : Nat) :
    ({ newRouter with dpid := some c.dpid } : Router).connect c now =
      Except.ok { connection := some c.handle, ports := some c.featurePorts,
                  igmp_ports := c.featurePorts.filter
                    (fun p => !(p == OFPP_CONTROLLER || p == OFPP_LOCAL)),
                  dpid := some c.dpid, listeners := some c.handle,
                  connected_at := some now, connected_hosts := [] } := by
  simp [Router.connect, newRouter, Router.disconnect]

/-- C2 amended: packet-in and connection-down events referencing a router
identifier that is not in the registry are absorbed with no state change
and no commands; the connection-up handler never faults; the timer tick
(the general-query launch) never faults on a registry whose routers all
hold a connection (as reachable registries do, routers being deleted on
connection-down); but a link event either of whose endpoint identifiers
is not in the registry raises an unhandled lookup fault instead of being
absorbed. -/
theorem C2_amended_fault_behaviour :
    (∀ (s : CastflowState) (e : PacketInEvent),
      lookup s.routers e.dpid = none → handlePacketIn s e = (s, [])) ∧
    (∀ (s : CastflowState) (d : Nat),
      lookup s.routers d = none → handleConnectionDown s d = s) ∧
    (∀ (s : CastflowState) (c : Connection) (now : Nat),
      ∃ s', handleConnectionUp s c now = Except.ok s') ∧
    (∀ s : CastflowState, (∀ ent ∈ s.routers, ent.2.connection.isSome) →
      ∃ cmds, launchGeneralQuery s = Except.ok cmds) ∧
    (∀ (s : CastflowState) (ev : LinkEvent) (disc : List Link),
      lookup s.routers ev.link.dpid1 = none ∨ lookup s.routers ev.link.dpid2 = none →
        ∃ msg, handleLinkEvent s ev disc = Except.error msg) := by
  refine ⟨?_, ?_, ?_, ?_, ?_⟩
  · intro s e h
    simp [handlePacketIn, h]
  · intro s d h
    simp [handleConnectionDown, h]
  · intro s c now
    rcases hl : lookup s.routers c.dpid with _ | r0 <;>
      by_cases hb : s.got_first_connection_up <;>
      simp [handleConnectionUp, hl, connect_fresh_ok, hb]
  · intro s hc
    suffices h : ∀ rs : List (Nat × Router), (∀ ent ∈ rs, ent.2.connection.isSome) →
        ∃ cmds, launchQueryAux rs = Except.ok cmds from h s.routers hc
    intro rs
    induction rs with
    | nil => exact fun _ => ⟨[], rfl⟩
    | cons ent rest ih =>
      intro hc'
      obtain ⟨cn, hcn⟩ := Option.isSome_iff_exists.mp (hc' ent (by simp))
      obtain ⟨cmds, hcmds⟩ := ih (fun e he => hc' e (by simp [he]))
      exact ⟨ent.2.igmp_ports.map
          (fun p => Command.packetOut cn none none [p] (some generalQueryMsg)) ++ cmds,
        by simp [launchQueryAux, routerQuerySends, hcn, hcmds]⟩
  · intro s ev disc h
    rcases h with h | h
    · exact ⟨"KeyError: l.dpid1 not in self.routers", by simp [handleLinkEvent, h]⟩
    · rcases hl1 : lookup s.routers ev.link.dpid1 with _ | r1
      · exact ⟨"KeyError: l.dpid1 not in self.routers", by simp [handleLinkEvent, hl1]⟩
      · exact ⟨"KeyError: l.dpid2 not in self.routers", by simp [handleLinkEvent, hl1, h]⟩

/-- Witness for C2 amended at concrete inputs: absorbed packet-in and
connection-down over the empty registry, a fault-free connection-up and
timer tick, and a link event whose second endpoint (dpid 4) alone is
missing from a one-router registry. -/
theorem C2_amended_fault_behaviour_witness :
    handlePacketIn initState
      { conn := 7, dpid := 1, port := 1, bufferId := 42, ipv4 := none } = (initState, []) ∧
    handleConnectionDown initState 5 = initState ∧
    (∃ s', handleConnectionUp initState { handle := 7, dpid := 1, featurePorts := [1] } 100 =
      Except.ok s') ∧
    (∃ cmds, launchGeneralQuery initState = Except.ok cmds) ∧
    (∃ msg, handleLinkEvent
      { got_first_connection_up := true,
        routers := [(1, { connection := some 7, ports := some [1, 2], igmp_ports := [1, 2],
                          dpid := some 1, listeners := some 7, connected_at := some 100,
                          connected_hosts := [] })],
        adjacency := [], queryTimerArmed := true }
      { link := ⟨1, 1, 4, 2⟩, removed := false } [] = Except.error msg) :=
  ⟨C2_amended_fault_behaviour.1 initState
      { conn := 7, dpid := 1, port := 1, bufferId := 42, ipv4 := none } rfl,
   C2_amended_fault_behaviour.2.1 initState 5 rfl,
   C2_amended_fault_behaviour.2.2.1 initState { handle := 7, dpid := 1, featurePorts := [1] } 100,
   C2_amended_fault_behaviour.2.2.2.1 initState (by simp [initState]),
   C2_amended_fault_behaviour.2.2.2.2
      { got_first_connection_up := true,
        routers := [(1, { connection := some 7, ports := some [1, 2], igmp_ports := [1, 2],
                          dpid := some 1, listeners := some 7, connected_at := some 100,
                          connected_hosts := [] })],
        adjacency := [], queryTimerArmed := true }
      { link := ⟨1, 1, 4, 2⟩, removed := false } [] (Or.inr rfl)⟩

/-! ### Claim C8: the general query broadcast -/

/-- C8 counterexample: the general query built and broadcast by
launch_igmp_general_query carries IP destination 224.0.0.1 (the
all-systems group, IGMP_V3_ALL_SYSTEMS_ADDRESS), which is not the
all-multicast-routers address 224.0.0.2; evaluated here on a registry
holding one router with the single igmp port 3. -/
theorem C8_counterexample_query_destination :
    launchGeneralQuery
      { got_first_connection_up := true,
        routers := [(1, { connection := some 7, ports := some [3], igmp_ports := [3],
                          dpid := some 1, listeners := some 7, connected_at := some 100,
                          connected_hosts := [] })],
        adjacency := [], queryTimerArmed := true } =
      Except.ok [Command.packetOut 7 none none [3] (some generalQueryMsg)] ∧
    generalQueryMsg.ip_dstip = IGMP_V3_ALL_SYSTEMS_ADDRESS ∧
    generalQueryMsg.ip_dstip ≠ ALL_MULTICAST_ROUTERS_ADDRESS :=
  ⟨rfl, rfl, by decide⟩

/-- Helper: the query iteration over a registry whose routers all hold a
connection succeeds, every command produced is a packet-out carrying the
one general-query message on a single port, and every (router, igmp port)
pair produces such a command. -/
theorem launchQueryAux_ok (rs : List (Nat × Router))
    (hc : ∀ ent ∈ rs, ent.2.connection.isSome) :
    ∃ cmds, launchQueryAux rs = Except.ok cmds ∧
      (∀ cmd ∈ cmds, ∃ cn p, cmd = Command.packetOut cn none none [p] (some generalQueryMsg)) ∧
      (∀ ent ∈ rs, ∀ cn, ent.2.connection = some cn →
        ∀ p ∈ ent.2.igmp_ports,
          Command.packetOut cn none none [p] (some generalQueryMsg) ∈ cmds) := by
  induction rs with
  | nil => exact ⟨[], rfl, by simp, by simp⟩
  | cons ent rest ih =>
    obtain ⟨cn, hcn⟩ := Option.isSome_iff_exists.mp (hc ent (by simp))
    obtain ⟨cmds, hcmds, hall, hmem⟩ := ih (fun e he => hc e (by simp [he]))
    refine ⟨ent.2.igmp_ports.map
        (fun p => Command.packetOut cn none none [p] (some generalQueryMsg)) ++ cmds,
      ?_, ?_, ?_⟩
    · simp [launchQueryAux, routerQuerySends, hcn, hcmds]
    · intro cmd hcmd
      rcases List.mem_append.mp hcmd with h | h
      · obtain ⟨p, hp, hcmdeq⟩ := List.mem_map.mp h
        exact ⟨cn, p, hcmdeq.symm⟩
      · exact hall cmd h
    · intro ent' hent' cn' hcn' p hp
      rcases List.mem_cons.mp hent' with hent'' | h
      · rw [hent''] at hcn' hp
        rw [hcn] at hcn'
        injection hcn' with hcneq
        subst hcneq
        exact List.mem_append.mpr (Or.inl (List.mem_map.mpr ⟨p, hp, rfl⟩))
      · exact List.mem_append.mpr (Or.inr (hmem ent' h cn' hcn' p hp))

/-- C8 amended: on a registry whose routers all hold a connection, the
general-query operation succeeds, emits only packet-outs of the single
built membership-query message (whose IP destination is the all-systems
address 224.0.0.1), and emits one such packet-out for every igmp
(edge-eligible) port of every registered router. -/
theorem C8_amended_general_query (s : CastflowState)
    (hc : ∀ ent ∈ s.routers, ent.2.connection.isSome) :
    ∃ cmds, launchGeneralQuery s = Except.ok cmds ∧
      (∀ cmd ∈ cmds, ∃ cn p, cmd = Command.packetOut cn none none [p] (some generalQueryMsg)) ∧
      (∀ ent ∈ s.routers, ∀ cn, ent.2.connection = some cn →
        ∀ p ∈ ent.2.igmp_ports,
          Command.packetOut cn none none [p] (some generalQueryMsg) ∈ cmds) ∧
      generalQueryMsg.ip_dstip = IGMP_V3_ALL_SYSTEMS_ADDRESS := by
  obtain ⟨cmds, h1, h2, h3⟩ := launchQueryAux_ok s.routers hc
  exact ⟨cmds, h1, h2, h3, rfl⟩

/-- The concrete two-router registry state used by the C8 witness. -/
def c8State : CastflowState :=
  { got_first_connection_up := true,
    routers := [(1, { connection := some 7, ports := some [1, 2], igmp_ports := [1, 2],
                      dpid := some 1, listeners := some 7, connected_at := some 100,
                      connected_hosts := [] }),
                (2, { connection := some 8, ports := some [1], igmp_ports := [1],
                      dpid := some 2, listeners := some 8, connected_at := some 101,
                      connected_hosts := [] })],
    adjacency := [], queryTimerArmed := true }

/-- Witness for C8 amended on a concrete two-router registry. -/
theorem C8_amended_general_query_witness :
    ∃ cmds, launchGeneralQuery c8State = Except.ok cmds ∧
      (∀ cmd ∈ cmds, ∃ cn p, cmd = Command.packetOut cn none none [p] (some generalQueryMsg)) ∧
      (∀ ent ∈ c8State.routers, ∀ cn, ent.2.connection = some cn →
        ∀ p ∈ ent.2.igmp_ports,
          Command.packetOut cn none none [p] (some generalQueryMsg) ∈ cmds) ∧
      generalQueryMsg.ip_dstip = IGMP_V3_ALL_SYSTEMS_ADDRESS :=
  C8_amended_general_query c8State (by decide)

/-! ### Key bookkeeping lemmas for the adjacency map -/

theorem key_not_mem_of_adjGet_none (adj : List ((Nat × Nat) × Nat)) (a b : Nat)
    (h : adjGet adj a b = none) : (a, b) ∉ adj.map (fun ent => ent.1) := by
  intro hmem
  obtain ⟨ent, hent, hfst⟩ := List.mem_map.mp hmem
  have hfind : adj.find? (fun ent => ent.1.1 == a && ent.1.2 == b) = none := by
    rw [adjGet] at h
    exact Option.map_eq_none'.mp h
  have hnot := List.find?_eq_none.mp hfind ent hent
  rw [hfst] at hnot
  simp at hnot

theorem adjSet_keys_of_none (adj : List ((Nat × Nat) × Nat)) (a b p : Nat)
    (h : adjGet adj a b = none) :
    (adjSet adj a b p).map (fun ent => ent.1) = adj.map (fun ent => ent.1) ++ [(a, b)] := by
  have hfind : (adj.find? (fun ent => ent.1.1 == a && ent.1.2 == b)).isSome = false := by
    rw [adjGet_isSome_find, h]
    rfl
  rw [adjSet, if_neg (by rw [hfind]; simp)]
  simp

theorem adjSet2_keys_nodup (adj : List ((Nat × Nat) × Nat)) (d1 d2 p1 p2 : Nat)
    (h12 : d1 ≠ d2)
    (h1 : adjGet adj d1 d2 = none) (h2 : adjGet adj d2 d1 = none)
    (hk : (adj.map (fun ent => ent.1)).Nodup) :
    ((adjSet (adjSet adj d1 d2 p1) d2 d1 p2).map (fun ent => ent.1)).Nodup := by
  have h2' : adjGet (adjSet adj d1 d2 p1) d2 d1 = none := by
    rw [adjGet_adjSet_ne adj d1 d2 p1 d2 d1 (by rintro ⟨ha, hb⟩; exact h12 hb)]
    exact h2
  rw [adjSet_keys_of_none _ _ _ _ h2', adjSet_keys_of_none _ _ _ _ h1]
  have hm1 := key_not_mem_of_adjGet_none adj d1 d2 h1
  have hm2 := key_not_mem_of_adjGet_none adj d2 d1 h2
  rw [List.nodup_append, List.nodup_append]
  refine ⟨⟨hk, List.nodup_singleton _, ?_⟩, List.nodup_singleton _, ?_⟩
  · intro x hx hx'
    rw [List.mem_singleton] at hx'
    subst hx'
    exact hm1 hx
  · intro x hx hx'
    rw [List.mem_singleton] at hx'
    subst hx'
    rcases List.mem_append.mp hx with hmem | hmem
    · exact hm2 hmem
    · rw [List.mem_singleton] at hmem
      injection hmem with ha hb
      exact h12 hb

/-! ### The bidirectional-add branch of the link handler -/

/-- Specification of the add branch of _handle_LinkEvent when the reverse
direction is already in the raw discovery set and the pair is not yet
committed: both adjacency directions are committed, both endpoint ports
leave the igmp sets, and all other routers are untouched. -/
theorem handleLinkEvent_add_commit (s : CastflowState) (d1 p1 d2 p2 : Nat) (r1 r2 : Router)
    (disc : List Link) (h12 : d1 ≠ d2)
    (h1 : lookup s.routers d1 = some r1) (h2 : lookup s.routers d2 = some r2)
    (hadj : adjGet s.adjacency d1 d2 = none)
    (hdisc : ({ dpid1 := d2, port1 := p2, dpid2 := d1, port2 := p1 } : Link) ∈ disc)
    (hp1 : p1 ∈ r1.igmp_ports) (hp2 : p2 ∈ r2.igmp_ports) :
    ∃ s', handleLinkEvent s { link := ⟨d1, p1, d2, p2⟩, removed := false } disc = Except.ok s' ∧
      s'.adjacency = adjSet (adjSet s.adjacency d1 d2 p1) d2 d1 p2 ∧
      (lookup s'.routers d1).map Router.igmp_ports = some (r1.igmp_ports.erase p1) ∧
      (lookup s'.routers d2).map Router.igmp_ports = some (r2.igmp_ports.erase p2) ∧
      (∀ d', d' ≠ d1 → d' ≠ d2 → lookup s'.routers d' = lookup s.routers d') := by
  have hcommit := commitLink_ok s d1 p1 d2 p2 r1 r2 h12 h1 h2 hp1 hp2
  refine ⟨modifyRouter (modifyRouter
      { s with adjacency := adjSet (adjSet s.adjacency d1 d2 p1) d2 d1 p2,
               routers := updateRouter (updateRouter s.routers d1
                   (fun r' => { r' with igmp_ports := r1.igmp_ports.erase p1 })) d2
                   (fun r' => { r' with igmp_ports := r2.igmp_ports.erase p2 }) }
      d1 (fun r => if (hostsGet r.connected_hosts p1).isSome then
            { r with connected_hosts := hostsDel r.connected_hosts p1 } else r))
      d2 (fun r => if (hostsGet r.connected_hosts p2).isSome then
            { r with connected_hosts := hostsDel r.connected_hosts p2 } else r),
    ?_, ?_, ?_, ?_, ?_⟩
  · simp only [handleLinkEvent, flipLink]
    simp [h1, h2, hadj, hdisc, hcommit, modifyRouter]
  · simp [modifyRouter]
  · rw [modifyRouter, modifyRouter]
    dsimp only
    rw [lookup_updateRouter_ne _ _ _ _ h12, lookup_updateRouter_self,
      lookup_updateRouter_ne _ _ _ _ h12, lookup_updateRouter_self, h1]
    by_cases hb : (hostsGet r1.connected_hosts p1).isSome <;> simp [hb]
  · rw [modifyRouter, modifyRouter]
    dsimp only
    rw [lookup_updateRouter_self, lookup_updateRouter_ne _ _ _ _ (Ne.symm h12),
      lookup_updateRouter_self, lookup_updateRouter_ne _ _ _ _ (Ne.symm h12), h2]
    by_cases hb : (hostsGet r2.connected_hosts p2).isSome <;> simp [hb]
  · intro d' hd1 hd2
    rw [modifyRouter, modifyRouter]
    dsimp only
    rw [lookup_updateRouter_ne _ _ _ _ hd2, lookup_updateRouter_ne _ _ _ _ hd1,
      lookup_updateRouter_ne _ _ _ _ hd2, lookup_updateRouter_ne _ _ _ _ hd1]

/-! ### Claim C5: bidirectional link-up confirmation -/

/-- C5: processing the two directed reports of one link between distinct
known routers, in either order (the statement is universally quantified
over the link, so both orders are instances), ends with exactly one
adjacency entry per ordered pair -- adjacency[d1][d2] = p1 and
adjacency[d2][d1] = p2, with the key list duplicate-free -- and with p1
removed from d1's igmp port set and p2 from d2's; and a single
unidirectional report whose reverse is not in the raw discovery set
changes nothing at all. -/
theorem C5_bidirectional_link_up_adjacency :
    (∀ (s : CastflowState) (d1 p1 d2 p2 : Nat) (r1 r2 : Router) (disc1 disc2 : List Link),
      d1 ≠ d2 →
      lookup s.routers d1 = some r1 →
      lookup s.routers d2 = some r2 →
      adjGet s.adjacency d1 d2 = none →
      adjGet s.adjacency d2 d1 = none →
      p1 ∈ r1.igmp_ports → p2 ∈ r2.igmp_ports →
      r1.igmp_ports.Nodup → r2.igmp_ports.Nodup →
      (s.adjacency.map (fun ent => ent.1)).Nodup →
      ({ dpid1 := d1, port1 := p1, dpid2 := d2, port2 := p2 } : Link) ∈ disc2 →
      ∃ s1 s2,
        handleLinkEvent s { link := ⟨d1, p1, d2, p2⟩, removed := false } disc1 = Except.ok s1 ∧
        handleLinkEvent s1 { link := ⟨d2, p2, d1, p1⟩, removed := false } disc2 = Except.ok s2 ∧
        adjGet s2.adjacency d1 d2 = some p1 ∧
        adjGet s2.adjacency d2 d1 = some p2 ∧
        (s2.adjacency.map (fun ent => ent.1)).Nodup ∧
        (∃ r1', lookup s2.routers d1 = some r1' ∧ p1 ∉ r1'.igmp_ports) ∧
        (∃ r2', lookup s2.routers d2 = some r2' ∧ p2 ∉ r2'.igmp_ports)) ∧
    (∀ (s : CastflowState) (ev : LinkEvent) (disc : List Link),
      ev.removed = false →
      (lookup s.routers ev.link.dpid1).isSome →
      (lookup s.routers ev.link.dpid2).isSome →
      flipLink ev.link ∉ disc →
      handleLinkEvent s ev disc = Except.ok s) := by
  constructor
  · intro s d1 p1 d2 p2 r1 r2 disc1 disc2 h12 h1 h2 hadj12 hadj21 hp1 hp2 hnod1 hnod2 hkeys hl2
    by_cases hd : ({ dpid1 := d2, port1 := p2, dpid2 := d1, port2 := p1 } : Link) ∈ disc1
    · -- the first report already sees its reverse: it commits, the second is a no-op
      obtain ⟨s1, heq1, hA, hR1, hR2, hO⟩ :=
        handleLinkEvent_add_commit s d1 p1 d2 p2 r1 r2 disc1 h12 h1 h2 hadj12 hd hp1 hp2
      obtain ⟨r1', hlr1, hig1⟩ := Option.map_eq_some'.mp hR1
      obtain ⟨r2', hlr2, hig2⟩ := Option.map_eq_some'.mp hR2
      have hadj21' : adjGet s1.adjacency d2 d1 = some p2 := by
        rw [hA]
        exact adjGet_adjSet_self _ _ _ _
      have heq2 : handleLinkEvent s1 { link := ⟨d2, p2, d1, p1⟩, removed := false } disc2 =
          Except.ok s1 := by
        simp [handleLinkEvent, hlr1, hlr2, hadj21']
      refine ⟨s1, s1, heq1, heq2, ?_, hadj21', ?_, ⟨r1', hlr1, ?_⟩, ⟨r2', hlr2, ?_⟩⟩
      · rw [hA, adjGet_adjSet_ne _ _ _ _ _ _ (by rintro ⟨ha, hb⟩; exact h12 ha),
          adjGet_adjSet_self]
      · rw [hA]
        exact adjSet2_keys_nodup s.adjacency d1 d2 p1 p2 h12 hadj12 hadj21 hkeys
      · rw [hig1]
        exact hnod1.not_mem_erase
      · rw [hig2]
        exact hnod2.not_mem_erase
    · -- the first report is held pending, the second commits
      have heq1 : handleLinkEvent s { link := ⟨d1, p1, d2, p2⟩, removed := false } disc1 =
          Except.ok s := by
        simp [handleLinkEvent, h1, h2, hadj12, flipLink, hd]
      obtain ⟨s2, heq2, hA, hR2, hR1, hO⟩ :=
        handleLinkEvent_add_commit s d2 p2 d1 p1 r2 r1 disc2 (Ne.symm h12) h2 h1 hadj21 hl2
          hp2 hp1
      obtain ⟨r1', hlr1, hig1⟩ := Option.map_eq_some'.mp hR1
      obtain ⟨r2', hlr2, hig2⟩ := Option.map_eq_some'.mp hR2
      refine ⟨s, s2, heq1, heq2, ?_, ?_, ?_, ⟨r1', hlr1, ?_⟩, ⟨r2', hlr2, ?_⟩⟩
      · rw [hA, adjGet_adjSet_self]
      · rw [hA, adjGet_adjSet_ne _ _ _ _ _ _ (by rintro ⟨ha, hb⟩; exact h12 hb),
          adjGet_adjSet_self]
      · rw [hA]
        exact adjSet2_keys_nodup s.adjacency d2 d1 p2 p1 (Ne.symm h12) hadj21 hadj12 hkeys
      · rw [hig1]
        exact hnod1.not_mem_erase
      · rw [hig2]
        exact hnod2.not_mem_erase
  · intro s ev disc hrem hs1 hs2 hflip
    obtain ⟨r1, hr1⟩ := Option.isSome_iff_exists.mp hs1
    obtain ⟨r2, hr2⟩ := Option.isSome_iff_exists.mp hs2
    rcases hadj : adjGet s.adjacency ev.link.dpid1 ev.link.dpid2 with _ | q
    · simp [handleLinkEvent, hr1, hr2, hrem, hadj, hflip]
    · simp [handleLinkEvent, hr1, hr2, hrem, hadj]

/-- Witness for C5: two routers (dpids 1 and 2, each with free ports
[1, 2]) confirm the link 1.1 to 2.1 with the reverse report only present
at the second event; and a unidirectional report alone is a no-op. -/
theorem C5_bidirectional_link_up_adjacency_witness :
    (∃ s1 s2,
      handleLinkEvent
        { got_first_connection_up := true,
          routers := [(1, { connection := some 7, ports := some [1, 2], igmp_ports := [1, 2],
                            dpid := some 1, listeners := some 7, connected_at := some 100,
                            connected_hosts := [] }),
                      (2, { connection := some 8, ports := some [1, 2], igmp_ports := [1, 2],
                            dpid := some 2, listeners := some 8, connected_at := some 101,
                            connected_hosts := [] })],
          adjacency := [], queryTimerArmed := true }
        { link := ⟨1, 1, 2, 1⟩, removed := false } [⟨1, 1, 2, 1⟩] = Except.ok s1 ∧
      handleLinkEvent s1 { link := ⟨2, 1, 1, 1⟩, removed := false }
        [⟨1, 1, 2, 1⟩, ⟨2, 1, 1, 1⟩] = Except.ok s2 ∧
      adjGet s2.adjacency 1 2 = some 1 ∧
      adjGet s2.adjacency 2 1 = some 1 ∧
      (s2.adjacency.map (fun ent => ent.1)).Nodup ∧
      (∃ r1', lookup s2.routers 1 = some r1' ∧ 1 ∉ r1'.igmp_ports) ∧
      (∃ r2', lookup s2.routers 2 = some r2' ∧ 1 ∉ r2'.igmp_ports)) ∧
    handleLinkEvent
      { got_first_connection_up := true,
        routers := [(1, { connection := some 7, ports := some [1, 2], igmp_ports := [1, 2],
                          dpid := some 1, listeners := some 7, connected_at := some 100,
                          connected_hosts := [] }),
                    (2, { connection := some 8, ports := some [1, 2], igmp_ports := [1, 2],
                          dpid := some 2, listeners := some 8, connected_at := some 101,
                          connected_hosts := [] })],
        adjacency := [], queryTimerArmed := true }
      { link := ⟨1, 2, 2, 2⟩, removed := false } [⟨1, 2, 2, 2⟩] =
      Except.ok
        { got_first_connection_up := true,
          routers := [(1, { connection := some 7, ports := some [1, 2], igmp_ports := [1, 2],
                            dpid := some 1, listeners := some 7, connected_at := some 100,
                            connected_hosts := [] }),
                      (2, { connection := some 8, ports := some [1, 2], igmp_ports := [1, 2],
                            dpid := some 2, listeners := some 8, connected_at := some 101,
                            connected_hosts := [] })],
          adjacency := [], queryTimerArmed := true } :=
  ⟨C5_bidirectional_link_up_adjacency.1
      { got_first_connection_up := true,
        routers := [(1, { connection := some 7, ports := some [1, 2], igmp_ports := [1, 2],
                          dpid := some 1, listeners := some 7, connected_at := some 100,
                          connected_hosts := [] }),
                    (2, { connection := some 8, ports := some [1, 2], igmp_ports := [1, 2],
                          dpid := some 2, listeners := some 8, connected_at := some 101,
                          connected_hosts := [] })],
        adjacency := [], queryTimerArmed := true }
      1 1 2 1
      { connection := some 7, ports := some [1, 2], igmp_ports := [1, 2],
        dpid := some 1, listeners := some 7, connected_at := some 100, connected_hosts := [] }
      { connection := some 8, ports := some [1, 2], igmp_ports := [1, 2],
        dpid := some 2, listeners := some 8, connected_at := some 101, connected_hosts := [] }
      [⟨1, 1, 2, 1⟩] [⟨1, 1, 2, 1⟩, ⟨2, 1, 1, 1⟩]
      (by decide) rfl rfl rfl rfl (by decide) (by decide) (by decide) (by decide)
      (by decide) (by decide),
   C5_bidirectional_link_up_adjacency.2
      { got_first_connection_up := true,
        routers := [(1, { connection := some 7, ports := some [1, 2], igmp_ports := [1, 2],
                          dpid := some 1, listeners := some 7, connected_at := some 100,
                          connected_hosts := [] }),
                    (2, { connection := some 8, ports := some [1, 2], igmp_ports := [1, 2],
                          dpid := some 2, listeners := some 8, connected_at := some 101,
                          connected_hosts := [] })],
        adjacency := [], queryTimerArmed := true }
      { link := ⟨1, 2, 2, 2⟩, removed := false } [⟨1, 2, 2, 2⟩]
      rfl (by decide) (by decide) (by decide)⟩

/-! ### Claim C4: link removal with a parallel bidirectional alternative -/

/-- C4: a removal event for the link d1.p1 to d2.p2 between distinct
registered routers, when the rescan of the raw discovery set finds the
parallel link ll (reported in both directions) between the same ordered
pair, deletes both directed adjacency entries of the pair, returns p1 and
p2 to the two routers' igmp port sets, and promotes the parallel link:
afterwards adjacency[d1][d2] = ll.port1 and adjacency[d2][d1] = ll.port2,
with ll's ports removed from the igmp sets while the removed link's ports
are back in them. -/
theorem C4_removal_with_parallel_promotes
    (s : CastflowState) (d1 p1 d2 p2 : Nat) (ll : Link) (r1 r2 : Router) (disc : List Link)
    (h12 : d1 ≠ d2)
    (h1 : lookup s.routers d1 = some r1) (h2 : lookup s.routers d2 = some r2)
    (hscan : parallelScan disc { dpid1 := d1, port1 := p1, dpid2 := d2, port2 := p2 } = some ll)
    (hq1 : ll.port1 ∈ r1.igmp_ports) (hq2 : ll.port2 ∈ r2.igmp_ports)
    (hne1 : ll.port1 ≠ p1) (hne2 : ll.port2 ≠ p2)
    (hp1 : p1 ∉ r1.igmp_ports) (hp2 : p2 ∉ r2.igmp_ports)
    (hnod1 : r1.igmp_ports.Nodup) (hnod2 : r2.igmp_ports.Nodup) :
    ∃ s', handleLinkEvent s { link := ⟨d1, p1, d2, p2⟩, removed := true } disc = Except.ok s' ∧
      adjGet s'.adjacency d1 d2 = some ll.port1 ∧
      adjGet s'.adjacency d2 d1 = some ll.port2 ∧
      (∃ r1', lookup s'.routers d1 = some r1' ∧
        p1 ∈ r1'.igmp_ports ∧ ll.port1 ∉ r1'.igmp_ports) ∧
      (∃ r2', lookup s'.routers d2 = some r2' ∧
        p2 ∈ r2'.igmp_ports ∧ ll.port2 ∉ r2'.igmp_ports) := by
  have hup1 : lookup
      (updateRouter (updateRouter s.routers d1
        (fun r => { r with igmp_ports := r.igmp_ports ++ [p1] })) d2
        (fun r => { r with igmp_ports := r.igmp_ports ++ [p2] })) d1 =
      some { r1 with igmp_ports := r1.igmp_ports ++ [p1] } := by
    rw [lookup_updateRouter_ne _ _ _ _ h12, lookup_updateRouter_self, h1]
    rfl
  have hup2 : lookup
      (updateRouter (updateRouter s.routers d1
        (fun r => { r with igmp_ports := r.igmp_ports ++ [p1] })) d2
        (fun r => { r with igmp_ports := r.igmp_ports ++ [p2] })) d2 =
      some { r2 with igmp_ports := r2.igmp_ports ++ [p2] } := by
    rw [lookup_updateRouter_self, lookup_updateRouter_ne _ _ _ _ (Ne.symm h12), h2]
    rfl
  have hcommit := commitLink_ok
    { s with
      adjacency := adjDel (adjDel s.adjacency d1 d2) d2 d1,
      routers := updateRouter (updateRouter s.routers d1
        (fun r => { r with igmp_ports := r.igmp_ports ++ [p1] })) d2
        (fun r => { r with igmp_ports := r.igmp_ports ++ [p2] }) }
    d1 ll.port1 d2 ll.port2
    { r1 with igmp_ports := r1.igmp_ports ++ [p1] }
    { r2 with igmp_ports := r2.igmp_ports ++ [p2] }
    h12 hup1 hup2
    (List.mem_append_left _ hq1) (List.mem_append_left _ hq2)
  have heq : handleLinkEvent s { link := ⟨d1, p1, d2, p2⟩, removed := true } disc =
      commitLink
        { s with
          adjacency := adjDel (adjDel s.adjacency d1 d2) d2 d1,
          routers := updateRouter (updateRouter s.routers d1
            (fun r => { r with igmp_ports := r.igmp_ports ++ [p1] })) d2
            (fun r => { r with igmp_ports := r.igmp_ports ++ [p2] }) }
        d1 ll.port1 d2 ll.port2 := by
    simp only [handleLinkEvent]
    simp [h1, h2, hscan, modifyRouter]
  have hnodA : (r1.igmp_ports ++ [p1]).Nodup := by
    rw [List.nodup_append]
    exact ⟨hnod1, List.nodup_singleton _,
      fun x hx hx' => hp1 ((List.mem_singleton.mp hx') ▸ hx)⟩
  have hnodB : (r2.igmp_ports ++ [p2]).Nodup := by
    rw [List.nodup_append]
    exact ⟨hnod2, List.nodup_singleton _,
      fun x hx hx' => hp2 ((List.mem_singleton.mp hx') ▸ hx)⟩
  rw [hcommit] at heq
  refine ⟨_, heq, ?_, ?_,
    ⟨{ r1 with igmp_ports := (r1.igmp_ports ++ [p1]).erase ll.port1 }, ?_, ?_, ?_⟩,
    ⟨{ r2 with igmp_ports := (r2.igmp_ports ++ [p2]).erase ll.port2 }, ?_, ?_, ?_⟩⟩
  · dsimp only
    rw [adjGet_adjSet_ne _ _ _ _ _ _ (by rintro ⟨ha, hb⟩; exact h12 ha), adjGet_adjSet_self]
  · dsimp only
    rw [adjGet_adjSet_self]
  · dsimp only
    rw [lookup_updateRouter_ne _ _ _ _ h12, lookup_updateRouter_self, hup1]
    rfl
  · dsimp only
    exact (List.mem_erase_of_ne (Ne.symm hne1)).mpr
      (List.mem_append_right _ (List.mem_singleton.mpr rfl))
  · dsimp only
    exact hnodA.not_mem_erase
  · dsimp only
    rw [lookup_updateRouter_self, lookup_updateRouter_ne _ _ _ _ (Ne.symm h12), hup2]
    rfl
  · dsimp only
    exact (List.mem_erase_of_ne (Ne.symm hne2)).mpr
      (List.mem_append_right _ (List.mem_singleton.mpr rfl))
  · dsimp only
    exact hnodB.not_mem_erase

/-- Witness for C4: routers 1 and 2 are joined over committed ports 1/1;
removing that link while the raw discovery set still reports the parallel
link 1.2 to 2.2 in both directions promotes the parallel link. -/
theorem C4_removal_with_parallel_promotes_witness :
    ∃ s', handleLinkEvent
      { got_first_connection_up := true,
        routers := [(1, { connection := some 7, ports := some [1, 2], igmp_ports := [2],
                          dpid := some 1, listeners := some 7, connected_at := some 100,
                          connected_hosts := [] }),
                    (2, { connection := some 8, ports := some [1, 2], igmp_ports := [2],
                          dpid := some 2, listeners := some 8, connected_at := some 101,
                          connected_hosts := [] })],
        adjacency := [((1, 2), 1), ((2, 1), 1)], queryTimerArmed := true }
      { link := ⟨1, 1, 2, 1⟩, removed := true } [⟨1, 2, 2, 2⟩, ⟨2, 2, 1, 2⟩] = Except.ok s' ∧
      adjGet s'.adjacency 1 2 = some (Link.port1 ⟨1, 2, 2, 2⟩) ∧
      adjGet s'.adjacency 2 1 = some (Link.port2 ⟨1, 2, 2, 2⟩) ∧
      (∃ r1', lookup s'.routers 1 = some r1' ∧
        1 ∈ r1'.igmp_ports ∧ Link.port1 ⟨1, 2, 2, 2⟩ ∉ r1'.igmp_ports) ∧
      (∃ r2', lookup s'.routers 2 = some r2' ∧
        1 ∈ r2'.igmp_ports ∧ Link.port2 ⟨1, 2, 2, 2⟩ ∉ r2'.igmp_ports) :=
  C4_removal_with_parallel_promotes
    { got_first_connection_up := true,
      routers := [(1, { connection := some 7, ports := some [1, 2], igmp_ports := [2],
                        dpid := some 1, listeners := some 7, connected_at := some 100,
                        connected_hosts := [] }),
                  (2, { connection := some 8, ports := some [1, 2], igmp_ports := [2],
                        dpid := some 2, listeners := some 8, connected_at := some 101,
                        connected_hosts := [] })],
      adjacency := [((1, 2), 1), ((2, 1), 1)], queryTimerArmed := true }
    1 1 2 1 ⟨1, 2, 2, 2⟩
    { connection := some 7, ports := some [1, 2], igmp_ports := [2],
      dpid := some 1, listeners := some 7, connected_at := some 100, connected_hosts := [] }
    { connection := some 8, ports := some [1, 2], igmp_ports := [2],
      dpid := some 2, listeners := some 8, connected_at := some 101, connected_hosts := [] }
    [⟨1, 2, 2, 2⟩, ⟨2, 2, 1, 2⟩]
    (by decide) rfl rfl (by decide) (by decide) (by decide) (by decide) (by decide)
    (by decide) (by decide) (by decide) (by decide)

/-! ### Claim C3: event sequences, runs, and the port-classification invariant -/

/-- The topology-facing external events (connection lifecycle and link
events); a link event carries the raw discovery set read by its handler. -/
inductive TopoEvent where
  | connUp (c : Connection) (now : Nat)
  | connDown (dpid : Nat)
  | linkEv (ev : LinkEvent) (disc : List Link)
deriving DecidableEq, Repr

/-- Dispatch one topology event to its handler. -/
def stepTopo (s : CastflowState) (e : TopoEvent) : Except String CastflowState :=
  match e with
  | TopoEvent.connUp c now => handleConnectionUp s c now
  | TopoEvent.connDown d => Except.ok (handleConnectionDown s d)
  | TopoEvent.linkEv ev disc => handleLinkEvent s ev disc

/-- Process a sequence of topology events, stopping at the first fault. -/
def runTopo : CastflowState → List TopoEvent → Except String CastflowState
  | s, [] => Except.ok s
  | s, e :: es =>
    match stepTopo s e with
    | Except.error msg => Except.error msg
    | Except.ok s1 => runTopo s1 es

/-- C3 counterexample: after connection-ups for routers 1 and 2 (ports
[1, 2] each) and a removal event for the never-committed link 1.1 to 2.1,
router 1's igmp port list is [1, 2, 1]: port 1 occurs twice, violating the
claimed no-duplicates invariant (the removal branch appends the endpoint
ports unconditionally, castflow.py:240-241). -/
theorem C3_counterexample_duplicate_port :
    (runTopo initState
      [TopoEvent.connUp ⟨7, 1, [1, 2]⟩ 100,
       TopoEvent.connUp ⟨8, 2, [1, 2]⟩ 101,
       TopoEvent.linkEv ⟨⟨1, 1, 2, 1⟩, true⟩ []]).map
        (fun s' => (lookup s'.routers 1).map (fun r => r.igmp_ports)) =
      Except.ok (some [1, 2, 1]) ∧
    ¬ ([1, 2, 1] : List Nat).Nodup :=
  ⟨rfl, by decide⟩

/-- Side conditions under which a topology event is well-formed for the
amended invariant: connection-ups report duplicate-free port lists,
link events connect two distinct routers, and a removal event removes a
currently committed adjacency with matching ports.  Connection-down events
are excluded (Python keys the adjacency map by Router object identity, so
entries of a dropped router object become unreachable; the dpid-keyed
shallow embedding cannot follow a re-registration after a down). -/
def eventOk (s : CastflowState) : TopoEvent → Prop
  | TopoEvent.connUp c _ => c.featurePorts.Nodup
  | TopoEvent.connDown _ => False
  | TopoEvent.linkEv ev _ =>
      ev.link.dpid1 ≠ ev.link.dpid2 ∧
      (ev.removed = true →
        adjGet s.adjacency ev.link.dpid1 ev.link.dpid2 = some ev.link.port1 ∧
        adjGet s.adjacency ev.link.dpid2 ev.link.dpid1 = some ev.link.port2)

/-- A fault-free run of well-formed topology events. -/
inductive OkRun : CastflowState → List TopoEvent → CastflowState → Prop where
  | nil (s : CastflowState) : OkRun s [] s
  | cons {s s1 s2 : CastflowState} {e : TopoEvent} {es : List TopoEvent} :
      eventOk s e → stepTopo s e = Except.ok s1 → OkRun s1 es s2 → OkRun s (e :: es) s2

/-- The inductive state invariant: committed adjacency sources are
registered, the committed map is symmetric in its key pairs, and every
registered router has a duplicate-free igmp port list that is disjoint
from its committed adjacency ports, each of which it uses towards at most
one neighbour. -/
def StateInv (s : CastflowState) : Prop :=
  (∀ a b p, adjGet s.adjacency a b = some p → (lookup s.routers a).isSome) ∧
  (∀ a b, (adjGet s.adjacency a b).isSome → (adjGet s.adjacency b a).isSome) ∧
  (∀ d r, lookup s.routers d = some r →
    r.igmp_ports.Nodup ∧
    (∀ b p, adjGet s.adjacency d b = some p → p ∉ r.igmp_ports) ∧
    (∀ b b' p, adjGet s.adjacency d b = some p → adjGet s.adjacency d b' = some p → b = b'))

theorem inv_initState : StateInv initState := by
  refine ⟨?_, ?_, ?_⟩ <;> intro a b p <;> simp [initState, adjGet, lookup] at *

theorem isSome_lookup_updateRouter (rs : List (Nat × Router)) (d : Nat) (f : Router → Router)
    (d' : Nat) : (lookup (updateRouter rs d f) d').isSome = (lookup rs d').isSome := by
  by_cases h : d' = d
  · subst h
    rw [lookup_updateRouter_self]
    rcases lookup rs d' with _ | r <;> rfl
  · rw [lookup_updateRouter_ne _ _ _ _ h]

theorem adjGet_set2 (adj : List ((Nat × Nat) × Nat)) (a1 b1 q1 a2 b2 q2 x y : Nat) :
    adjGet (adjSet (adjSet adj a1 b1 q1) a2 b2 q2) x y =
      if x = a2 ∧ y = b2 then some q2
      else if x = a1 ∧ y = b1 then some q1
      else adjGet adj x y := by
  by_cases k2 : x = a2 ∧ y = b2
  · obtain ⟨hx, hy⟩ := k2
    subst hx
    subst hy
    rw [if_pos ⟨rfl, rfl⟩, adjGet_adjSet_self]
  · rw [if_neg k2, adjGet_adjSet_ne _ _ _ _ _ _ k2]
    by_cases k1 : x = a1 ∧ y = b1
    · obtain ⟨hx, hy⟩ := k1
      subst hx
      subst hy
      rw [if_pos ⟨rfl, rfl⟩, adjGet_adjSet_self]
    · rw [if_neg k1, adjGet_adjSet_ne _ _ _ _ _ _ k1]

theorem adjGet_del2 (adj : List ((Nat × Nat) × Nat)) (a1 b1 a2 b2 x y : Nat) :
    adjGet (adjDel (adjDel adj a1 b1) a2 b2) x y =
      if x = a2 ∧ y = b2 then none
      else if x = a1 ∧ y = b1 then none
      else adjGet adj x y := by
  by_cases k2 : x = a2 ∧ y = b2
  · obtain ⟨hx, hy⟩ := k2
    subst hx
    subst hy
    rw [if_pos ⟨rfl, rfl⟩, adjGet_adjDel_self]
  · rw [if_neg k2, adjGet_adjDel_ne _ _ _ _ _ k2]
    by_cases k1 : x = a1 ∧ y = b1
    · obtain ⟨hx, hy⟩ := k1
      subst hx
      subst hy
      rw [if_pos ⟨rfl, rfl⟩, adjGet_adjDel_self]
    · rw [if_neg k1, adjGet_adjDel_ne _ _ _ _ _ k1]

theorem lookup_upd2 (rs : List (Nat × Router)) (d1 : Nat) (f1 : Router → Router)
    (d2 : Nat) (f2 : Router → Router) (x : Nat) (h12 : d1 ≠ d2) :
    lookup (updateRouter (updateRouter rs d1 f1) d2 f2) x =
      if x = d2 then (lookup rs d2).map f2
      else if x = d1 then (lookup rs d1).map f1
      else lookup rs x := by
  by_cases k2 : x = d2
  · subst k2
    rw [if_pos rfl, lookup_updateRouter_self, lookup_updateRouter_ne _ _ _ _ (Ne.symm h12)]
  · rw [if_neg k2, lookup_updateRouter_ne _ _ _ _ k2]
    by_cases k1 : x = d1
    · subst k1
      rw [if_pos rfl, lookup_updateRouter_self]
    · rw [if_neg k1, lookup_updateRouter_ne _ _ _ _ k1]

/-- Inversion of a successful commit: it pins down the registered routers,
the removed ports' membership, and the exact result state. -/
theorem commitLink_inversion (s : CastflowState) (d1 p1 d2 p2 : Nat) (s' : CastflowState)
    (h12 : d1 ≠ d2) (hstep : commitLink s d1 p1 d2 p2 = Except.ok s') :
    ∃ r1 r2, lookup s.routers d1 = some r1 ∧ lookup s.routers d2 = some r2 ∧
      p1 ∈ r1.igmp_ports ∧ p2 ∈ r2.igmp_ports ∧
      s' = { s with
        adjacency := adjSet (adjSet s.adjacency d1 d2 p1) d2 d1 p2,
        routers := updateRouter (updateRouter s.routers d1
          (fun r' => { r' with igmp_ports := r1.igmp_ports.erase p1 })) d2
          (fun r' => { r' with igmp_ports := r2.igmp_ports.erase p2 }) } := by
  rcases hl1 : lookup s.routers d1 with _ | r1
  · simp [commitLink, removePortE, hl1] at hstep
  rcases hm1 : decide (p1 ∈ r1.igmp_ports) with _ | _
  · have hm1' : p1 ∉ r1.igmp_ports := of_decide_eq_false hm1
    simp [commitLink, removePortE, listRemove, hl1, hm1'] at hstep
  have hm1' : p1 ∈ r1.igmp_ports := of_decide_eq_true hm1
  have hmid : lookup (updateRouter s.routers d1
      (fun r' => { r' with igmp_ports := r1.igmp_ports.erase p1 })) d2 = lookup s.routers d2 :=
    lookup_updateRouter_ne _ _ _ _ (Ne.symm h12)
  rcases hl2 : lookup s.routers d2 with _ | r2
  · rw [hl2] at hmid
    simp [commitLink, removePortE, listRemove, modifyRouter, hl1, hm1', hmid] at hstep
  rcases hm2 : decide (p2 ∈ r2.igmp_ports) with _ | _
  · have hm2' : p2 ∉ r2.igmp_ports := of_decide_eq_false hm2
    rw [hl2] at hmid
    simp [commitLink, removePortE, listRemove, modifyRouter, hl1, hm1', hmid, hm2'] at hstep
  have hm2' : p2 ∈ r2.igmp_ports := of_decide_eq_true hm2
  rw [commitLink_ok s d1 p1 d2 p2 r1 r2 h12 hl1 hl2 hm1' hm2'] at hstep
  injection hstep with hs
  exact ⟨r1, r2, rfl, rfl, hm1', hm2', hs.symm⟩

/-- A successful commit preserves the state invariant. -/
theorem inv_commitLink (s : CastflowState) (d1 p1 d2 p2 : Nat) (s' : CastflowState)
    (hinv : StateInv s) (h12 : d1 ≠ d2)
    (hstep : commitLink s d1 p1 d2 p2 = Except.ok s') : StateInv s' := by
  obtain ⟨r1, r2, hl1, hl2, hm1, hm2, rfl⟩ := commitLink_inversion s d1 p1 d2 p2 s' h12 hstep
  obtain ⟨hsrc, hsym, hrp⟩ := hinv
  obtain ⟨hnod1, hdis1, hinj1⟩ := hrp d1 r1 hl1
  obtain ⟨hnod2, hdis2, hinj2⟩ := hrp d2 r2 hl2
  have hget : ∀ x y, adjGet (adjSet (adjSet s.adjacency d1 d2 p1) d2 d1 p2) x y =
      if x = d2 ∧ y = d1 then some p2
      else if x = d1 ∧ y = d2 then some p1
      else adjGet s.adjacency x y := fun x y => adjGet_set2 s.adjacency d1 d2 p1 d2 d1 p2 x y
  have hlook : ∀ x, lookup (updateRouter (updateRouter s.routers d1
      (fun r' => { r' with igmp_ports := r1.igmp_ports.erase p1 })) d2
      (fun r' => { r' with igmp_ports := r2.igmp_ports.erase p2 })) x =
      if x = d2 then some { r2 with igmp_ports := r2.igmp_ports.erase p2 }
      else if x = d1 then some { r1 with igmp_ports := r1.igmp_ports.erase p1 }
      else lookup s.routers x := by
    intro x
    rw [lookup_upd2 _ _ _ _ _ _ h12, hl1, hl2]
    rfl
  refine ⟨?_, ?_, ?_⟩
  · intro a b p hab
    dsimp only at hab ⊢
    rw [hget a b] at hab
    rw [hlook a]
    by_cases k2 : a = d2
    · rw [if_pos k2]
      rfl
    · rw [if_neg k2]
      by_cases k1 : a = d1
      · rw [if_pos k1]
        rfl
      · rw [if_neg k1]
        rw [if_neg (fun h => k2 h.1), if_neg (fun h => k1 h.1)] at hab
        exact hsrc a b p hab
  · intro a b hab
    dsimp only at hab ⊢
    rw [hget a b] at hab
    rw [hget b a]
    by_cases m2 : b = d2 ∧ a = d1
    · rw [if_pos m2]
      rfl
    · rw [if_neg m2]
      by_cases m1 : b = d1 ∧ a = d2
      · rw [if_pos m1]
        rfl
      · rw [if_neg m1]
        by_cases k2 : a = d2 ∧ b = d1
        · exact absurd ⟨k2.2, k2.1⟩ m1
        · rw [if_neg k2] at hab
          by_cases k1 : a = d1 ∧ b = d2
          · exact absurd ⟨k1.2, k1.1⟩ m2
          · rw [if_neg k1] at hab
            exact hsym a b hab
  · intro d r hr
    dsimp only at hr ⊢
    rw [hlook d] at hr
    by_cases k2 : d = d2
    · subst k2
      rw [if_pos rfl] at hr
      injection hr with hr
      subst hr
      refine ⟨?_, ?_, ?_⟩
      · dsimp only
        exact hnod2.erase _
      · intro b p hab
        dsimp only
        rw [hget d b] at hab
        by_cases m1 : b = d1
        · rw [if_pos ⟨rfl, m1⟩] at hab
          injection hab with hab
          subst hab
          exact hnod2.not_mem_erase
        · rw [if_neg (fun h => m1 h.2), if_neg (fun h => h12 h.1.symm)] at hab
          intro hmem
          exact hdis2 b p hab (List.erase_subset _ _ hmem)
      · intro b b' p hb hb'
        rw [hget d b] at hb
        rw [hget d b'] at hb'
        by_cases m1 : b = d1
        · by_cases m1' : b' = d1
          · rw [m1, m1']
          · rw [if_pos ⟨rfl, m1⟩] at hb
            rw [if_neg (fun h => m1' h.2), if_neg (fun h => h12 h.1.symm)] at hb'
            injection hb with hb
            subst hb
            exact absurd hm2 (hdis2 b' p2 hb')
        · by_cases m1' : b' = d1
          · rw [if_pos ⟨rfl, m1'⟩] at hb'
            rw [if_neg (fun h => m1 h.2), if_neg (fun h => h12 h.1.symm)] at hb
            injection hb' with hb'
            subst hb'
            exact absurd hm2 (hdis2 b p2 hb)
          · rw [if_neg (fun h => m1 h.2), if_neg (fun h => h12 h.1.symm)] at hb
            rw [if_neg (fun h => m1' h.2), if_neg (fun h => h12 h.1.symm)] at hb'
            exact hinj2 b b' p hb hb'
    · rw [if_neg k2] at hr
      by_cases k1 : d = d1
      · subst k1
        rw [if_pos rfl] at hr
        injection hr with hr
        subst hr
        refine ⟨?_, ?_, ?_⟩
        · dsimp only
          exact hnod1.erase _
        · intro b p hab
          dsimp only
          rw [hget d b] at hab
          by_cases m2 : b = d2
          · rw [if_neg (fun h => h12 h.1), if_pos ⟨rfl, m2⟩] at hab
            injection hab with hab
            subst hab
            exact hnod1.not_mem_erase
          · rw [if_neg (fun h => h12 h.1), if_neg (fun h => m2 h.2)] at hab
            intro hmem
            exact hdis1 b p hab (List.erase_subset _ _ hmem)
        · intro b b' p hb hb'
          rw [hget d b] at hb
          rw [hget d b'] at hb'
          by_cases m2 : b = d2
          · by_cases m2' : b' = d2
            · rw [m2, m2']
            · rw [if_neg (fun h => h12 h.1), if_pos ⟨rfl, m2⟩] at hb
              rw [if_neg (fun h => h12 h.1), if_neg (fun h => m2' h.2)] at hb'
              injection hb with hb
              subst hb
              exact absurd hm1 (hdis1 b' p1 hb')
          · by_cases m2' : b' = d2
            · rw [if_neg (fun h => h12 h.1), if_pos ⟨rfl, m2'⟩] at hb'
              rw [if_neg (fun h => h12 h.1), if_neg (fun h => m2 h.2)] at hb
              injection hb' with hb'
              subst hb'
              exact absurd hm1 (hdis1 b p1 hb)
            · rw [if_neg (fun h => h12 h.1), if_neg (fun h => m2 h.2)] at hb
              rw [if_neg (fun h => h12 h.1), if_neg (fun h => m2' h.2)] at hb'
              exact hinj1 b b' p hb hb'
      · rw [if_neg k1] at hr
        obtain ⟨hnod, hdis, hinj⟩ := hrp d r hr
        refine ⟨hnod, ?_, ?_⟩
        · intro b p hab
          rw [hget d b] at hab
          rw [if_neg (fun h => k2 h.1), if_neg (fun h => k1 h.1)] at hab
          exact hdis b p hab
        · intro b b' p hb hb'
          rw [hget d b] at hb
          rw [hget d b'] at hb'
          rw [if_neg (fun h => k2 h.1), if_neg (fun h => k1 h.1)] at hb
          rw [if_neg (fun h => k2 h.1), if_neg (fun h => k1 h.1)] at hb'
          exact hinj b b' p hb hb'

/-- A router mutation that does not touch the igmp port list (here: the
host-table retractions of the add branch) preserves the invariant. -/
theorem inv_hostsUpdate (s : CastflowState) (d : Nat) (g : Router → Router)
    (hg : ∀ r, (g r).igmp_ports = r.igmp_ports) (hinv : StateInv s) :
    StateInv (modifyRouter s d g) := by
  obtain ⟨hsrc, hsym, hrp⟩ := hinv
  refine ⟨?_, ?_, ?_⟩
  · intro a b p hab
    dsimp only [modifyRouter] at hab ⊢
    rw [isSome_lookup_updateRouter]
    exact hsrc a b p hab
  · intro a b hab
    exact hsym a b hab
  · intro d' r hr
    dsimp only [modifyRouter] at hr ⊢
    by_cases hd : d' = d
    · subst hd
      rw [lookup_updateRouter_self] at hr
      rcases hl : lookup s.routers d' with _ | r0
      · rw [hl] at hr
        simp at hr
      · rw [hl] at hr
        injection hr with hr
        subst hr
        obtain ⟨hnod, hdis, hinj⟩ := hrp d' r0 hl
        exact ⟨by rw [hg r0]; exact hnod,
          by intro b p hab; rw [hg r0]; exact hdis b p hab, hinj⟩
    · rw [lookup_updateRouter_ne _ _ _ _ hd] at hr
      exact hrp d' r hr

/-- The state reached by the removal branch before the parallel rescan
(adjacency entries of the pair deleted, endpoint ports appended back)
satisfies the invariant when the removal matches the committed entries. -/
theorem inv_removedPrep (s : CastflowState) (d1 p1 d2 p2 : Nat) (r1 r2 : Router)
    (hinv : StateInv s) (h12 : d1 ≠ d2)
    (hl1 : lookup s.routers d1 = some r1) (hl2 : lookup s.routers d2 = some r2)
    (hc1 : adjGet s.adjacency d1 d2 = some p1) (hc2 : adjGet s.adjacency d2 d1 = some p2) :
    StateInv { s with
      adjacency := adjDel (adjDel s.adjacency d1 d2) d2 d1,
      routers := updateRouter (updateRouter s.routers d1
        (fun r => { r with igmp_ports := r.igmp_ports ++ [p1] })) d2
        (fun r => { r with igmp_ports := r.igmp_ports ++ [p2] }) } := by
  obtain ⟨hsrc, hsym, hrp⟩ := hinv
  obtain ⟨hnod1, hdis1, hinj1⟩ := hrp d1 r1 hl1
  obtain ⟨hnod2, hdis2, hinj2⟩ := hrp d2 r2 hl2
  have hget : ∀ x y, adjGet (adjDel (adjDel s.adjacency d1 d2) d2 d1) x y =
      if x = d2 ∧ y = d1 then none
      else if x = d1 ∧ y = d2 then none
      else adjGet s.adjacency x y := fun x y => adjGet_del2 s.adjacency d1 d2 d2 d1 x y
  have hlook : ∀ x, lookup (updateRouter (updateRouter s.routers d1
      (fun r => { r with igmp_ports := r.igmp_ports ++ [p1] })) d2
      (fun r => { r with igmp_ports := r.igmp_ports ++ [p2] })) x =
      if x = d2 then some { r2 with igmp_ports := r2.igmp_ports ++ [p2] }
      else if x = d1 then some { r1 with igmp_ports := r1.igmp_ports ++ [p1] }
      else lookup s.routers x := by
    intro x
    rw [lookup_upd2 _ _ _ _ _ _ h12, hl1, hl2]
    rfl
  refine ⟨?_, ?_, ?_⟩
  · intro a b p hab
    dsimp only at hab ⊢
    rw [hget a b] at hab
    rw [hlook a]
    by_cases k2 : a = d2
    · rw [if_pos k2]
      rfl
    · rw [if_neg k2]
      by_cases k1 : a = d1
      · rw [if_pos k1]
        rfl
      · rw [if_neg k1]
        rw [if_neg (fun h => k2 h.1), if_neg (fun h => k1 h.1)] at hab
        exact hsrc a b p hab
  · intro a b hab
    dsimp only at hab ⊢
    rw [hget a b] at hab
    rw [hget b a]
    by_cases k2 : a = d2 ∧ b = d1
    · rw [if_pos k2] at hab
      simp at hab
    · rw [if_neg k2] at hab
      by_cases k1 : a = d1 ∧ b = d2
      · rw [if_pos k1] at hab
        simp at hab
      · rw [if_neg k1] at hab
        rw [if_neg (fun h => k1 ⟨h.2, h.1⟩), if_neg (fun h => k2 ⟨h.2, h.1⟩)]
        exact hsym a b hab
  · intro d r hr
    dsimp only at hr ⊢
    rw [hlook d] at hr
    by_cases k2 : d = d2
    · subst k2
      rw [if_pos rfl] at hr
      injection hr with hr
      subst hr
      have hp2 : p2 ∉ r2.igmp_ports := hdis2 d1 p2 hc2
      refine ⟨?_, ?_, ?_⟩
      · dsimp only
        rw [List.nodup_append]
        exact ⟨hnod2, List.nodup_singleton _,
          fun x hx hx' => hp2 ((List.mem_singleton.mp hx') ▸ hx)⟩
      · intro b p hab
        dsimp only
        rw [hget d b] at hab
        by_cases m1 : b = d1
        · rw [if_pos ⟨rfl, m1⟩] at hab
          simp at hab
        · rw [if_neg (fun h => m1 h.2), if_neg (fun h => h12 h.1.symm)] at hab
          intro hmem
          rcases List.mem_append.mp hmem with hx | hx
          · exact hdis2 b p hab hx
          · rw [List.mem_singleton.mp hx] at hab
            exact m1 (hinj2 b d1 p2 hab hc2)
      · intro b b' p hb hb'
        rw [hget d b] at hb
        rw [hget d b'] at hb'
        by_cases m1 : b = d1
        · rw [if_pos ⟨rfl, m1⟩] at hb
          simp at hb
        · by_cases m1' : b' = d1
          · rw [if_pos ⟨rfl, m1'⟩] at hb'
            simp at hb'
          · rw [if_neg (fun h => m1 h.2), if_neg (fun h => h12 h.1.symm)] at hb
            rw [if_neg (fun h => m1' h.2), if_neg (fun h => h12 h.1.symm)] at hb'
            exact hinj2 b b' p hb hb'
    · rw [if_neg k2] at hr
      by_cases k1 : d = d1
      · subst k1
        rw [if_pos rfl] at hr
        injection hr with hr
        subst hr
        have hp1 : p1 ∉ r1.igmp_ports := hdis1 d2 p1 hc1
        refine ⟨?_, ?_, ?_⟩
        · dsimp only
          rw [List.nodup_append]
          exact ⟨hnod1, List.nodup_singleton _,
            fun x hx hx' => hp1 ((List.mem_singleton.mp hx') ▸ hx)⟩
        · intro b p hab
          dsimp only
          rw [hget d b] at hab
          by_cases m2 : b = d2
          · rw [if_neg (fun h => h12 h.1), if_pos ⟨rfl, m2⟩] at hab
            simp at hab
          · rw [if_neg (fun h => h12 h.1), if_neg (fun h => m2 h.2)] at hab
            intro hmem
            rcases List.mem_append.mp hmem with hx | hx
            · exact hdis1 b p hab hx
            · rw [List.mem_singleton.mp hx] at hab
              exact m2 (hinj1 b d2 p1 hab hc1)
        · intro b b' p hb hb'
          rw [hget d b] at hb
          rw [hget d b'] at hb'
          by_cases m2 : b = d2
          · rw [if_neg (fun h => h12 h.1), if_pos ⟨rfl, m2⟩] at hb
            simp at hb
          · by_cases m2' : b' = d2
            · rw [if_neg (fun h => h12 h.1), if_pos ⟨rfl, m2'⟩] at hb'
              simp at hb'
            · rw [if_neg (fun h => h12 h.1), if_neg (fun h => m2 h.2)] at hb
              rw [if_neg (fun h => h12 h.1), if_neg (fun h => m2' h.2)] at hb'
              exact hinj1 b b' p hb hb'
      · rw [if_neg k1] at hr
        obtain ⟨hnod, hdis, hinj⟩ := hrp d r hr
        refine ⟨hnod, ?_, ?_⟩
        · intro b p hab
          rw [hget d b] at hab
          rw [if_neg (fun h => k2 h.1), if_neg (fun h => k1 h.1)] at hab
          exact hdis b p hab
        · intro b b' p hb hb'
          rw [hget d b] at hb
          rw [hget d b'] at hb'
          rw [if_neg (fun h => k2 h.1), if_neg (fun h => k1 h.1)] at hb
          rw [if_neg (fun h => k2 h.1), if_neg (fun h => k1 h.1)] at hb'
          exact hinj b b' p hb hb'

/-- The Router built and connected in the new-router branch of the
connection-up handler. -/
def freshRouter (c : Connection) (now : Nat) : Router :=
  { connection := some c.handle
    ports := some c.featurePorts
    igmp_ports := c.featurePorts.filter (fun p => !(p == OFPP_CONTROLLER || p == OFPP_LOCAL))
    dpid := some c.dpid
    listeners := some c.handle
    connected_at := some now
    connected_hosts := [] }

/-- The registry after the new-router branch registers and connects a
fresh Router for connection c. -/
def registerFresh (rs : List (Nat × Router)) (c : Connection) (now : Nat) :
    List (Nat × Router) :=
  updateRouter (rs ++ [(c.dpid, { newRouter with dpid := some c.dpid })]) c.dpid
    (fun _ => freshRouter c now)

theorem connect_fresh_ok' (c : Connection) (now : Nat) :
    ({ newRouter with dpid := some c.dpid } : Router).connect c now =
      Except.ok (freshRouter c now) :=
  connect_fresh_ok c now

theorem lookup_registerFresh (rs : List (Nat × Router)) (c : Connection) (now : Nat)
    (hl : lookup rs c.dpid = none) (x : Nat) :
    lookup (registerFresh rs c now) x =
      if x = c.dpid then some (freshRouter c now) else lookup rs x := by
  unfold registerFresh
  by_cases hx : x = c.dpid
  · subst hx
    rw [if_pos rfl, lookup_updateRouter_self, lookup_append, hl]
    simp
  · rw [if_neg hx, lookup_updateRouter_ne _ _ _ _ hx, lookup_append]
    rcases hlx : lookup rs x with _ | rx
    · simp [Ne.symm hx]
    · simp

/-- A connection-up with a duplicate-free feature port list preserves the
invariant. -/
theorem inv_connUp (s : CastflowState) (c : Connection) (now : Nat) (s' : CastflowState)
    (hinv : StateInv s) (hok : c.featurePorts.Nodup)
    (hstep : handleConnectionUp s c now = Except.ok s') : StateInv s' := by
  obtain ⟨hsrc, hsym, hrp⟩ := hinv
  rcases hl : lookup s.routers c.dpid with _ | r0
  · -- new-router branch
    have hnew : StateInv { s with routers := registerFresh s.routers c now } := by
      refine ⟨?_, ?_, ?_⟩
      · intro a b p hab
        dsimp only at hab ⊢
        rw [lookup_registerFresh s.routers c now hl a]
        by_cases ha : a = c.dpid
        · rw [if_pos ha]
          rfl
        · rw [if_neg ha]
          exact hsrc a b p hab
      · intro a b hab
        exact hsym a b hab
      · intro d r hr
        dsimp only at hr ⊢
        rw [lookup_registerFresh s.routers c now hl d] at hr
        by_cases hd : d = c.dpid
        · subst hd
          rw [if_pos rfl] at hr
          injection hr with hr
          subst hr
          refine ⟨?_, ?_, ?_⟩
          · exact hok.filter _
          · intro b p hab
            have := hsrc c.dpid b p hab
            rw [hl] at this
            simp at this
          · intro b b' p hb hb'
            have := hsrc c.dpid b p hb
            rw [hl] at this
            simp at this
        · rw [if_neg hd] at hr
          exact hrp d r hr
    by_cases hb : s.got_first_connection_up <;>
      simp only [handleConnectionUp, hl, connect_fresh_ok', hb, Bool.not_true, Bool.not_false,
        Bool.false_eq_true, if_false, if_true] at hstep <;>
      injection hstep with hs <;>
      rw [← hs] <;>
      exact hnew
  · -- known-router branch: the router registry and adjacency are untouched
    by_cases hb : s.got_first_connection_up <;>
      simp only [handleConnectionUp, hl, hb, Bool.not_true, Bool.not_false,
        Bool.false_eq_true, if_false, if_true] at hstep <;>
      injection hstep with hs <;>
      rw [← hs] <;>
      exact ⟨hsrc, hsym, hrp⟩

/-- A well-formed link event processed without fault preserves the
invariant. -/
theorem inv_linkEvent (s : CastflowState) (ev : LinkEvent) (disc : List Link)
    (s' : CastflowState) (hinv : StateInv s) (h12 : ev.link.dpid1 ≠ ev.link.dpid2)
    (hrm : ev.removed = true →
      adjGet s.adjacency ev.link.dpid1 ev.link.dpid2 = some ev.link.port1 ∧
      adjGet s.adjacency ev.link.dpid2 ev.link.dpid1 = some ev.link.port2)
    (hstep : handleLinkEvent s ev disc = Except.ok s') : StateInv s' := by
  rcases hl1 : lookup s.routers ev.link.dpid1 with _ | r1
  · simp [handleLinkEvent, hl1] at hstep
  rcases hl2 : lookup s.routers ev.link.dpid2 with _ | r2
  · simp [handleLinkEvent, hl1, hl2] at hstep
  rcases hrem : ev.removed with _ | _
  · -- link-up branch
    rcases hadj : adjGet s.adjacency ev.link.dpid1 ev.link.dpid2 with _ | q
    · by_cases hfl : flipLink ev.link ∈ disc
      · simp only [handleLinkEvent, hl1, hl2, hrem, hadj, hfl, Option.isNone_some,
          Option.isNone_none, Bool.false_eq_true, if_false, if_true, if_pos] at hstep
        rcases hc : commitLink s ev.link.dpid1 ev.link.port1 ev.link.dpid2 ev.link.port2
          with msg | sMid
        · rw [hc] at hstep
          simp at hstep
        · rw [hc] at hstep
          simp only [] at hstep
          injection hstep with hs
          rw [← hs]
          refine inv_hostsUpdate _ _ _ ?_ (inv_hostsUpdate _ _ _ ?_
            (inv_commitLink s ev.link.dpid1 ev.link.port1 ev.link.dpid2 ev.link.port2 sMid
              hinv h12 hc))
          · intro r
            by_cases hh : (hostsGet r.connected_hosts ev.link.port2).isSome <;> simp [hh]
          · intro r
            by_cases hh : (hostsGet r.connected_hosts ev.link.port1).isSome <;> simp [hh]
      · simp only [handleLinkEvent, hl1, hl2, hrem, hadj, hfl, Option.isNone_some,
          Option.isNone_none, Bool.false_eq_true, if_false, if_true] at hstep
        injection hstep with hs
        rw [← hs]
        exact hinv
    · simp only [handleLinkEvent, hl1, hl2, hrem, hadj, Option.isNone_some,
        Option.isNone_none, Bool.false_eq_true, if_false, if_true] at hstep
      injection hstep with hs
      rw [← hs]
      exact hinv
  · -- removal branch
    obtain ⟨hc1, hc2⟩ := hrm hrem
    have hprep := inv_removedPrep s ev.link.dpid1 ev.link.port1 ev.link.dpid2 ev.link.port2
      r1 r2 hinv h12 hl1 hl2 hc1 hc2
    rcases hscan : parallelScan disc ev.link with _ | ll
    · simp only [handleLinkEvent, hl1, hl2, hrem, hscan, modifyRouter, Option.isNone_some,
        Bool.false_eq_true, if_false, if_true] at hstep
      injection hstep with hs
      rw [← hs]
      exact hprep
    · simp only [handleLinkEvent, hl1, hl2, hrem, hscan, modifyRouter, Option.isNone_some,
        Bool.false_eq_true, if_false, if_true] at hstep
      exact inv_commitLink _ ev.link.dpid1 ll.port1 ev.link.dpid2 ll.port2 s' hprep h12 hstep

/-- One well-formed fault-free topology step preserves the invariant. -/
theorem inv_step (s : CastflowState) (e : TopoEvent) (s' : CastflowState)
    (hinv : StateInv s) (hok : eventOk s e) (hstep : stepTopo s e = Except.ok s') :
    StateInv s' := by
  cases e with
  | connUp c now => exact inv_connUp s c now s' hinv hok hstep
  | connDown d => exact hok.elim
  | linkEv ev disc => exact inv_linkEvent s ev disc s' hinv hok.1 hok.2 hstep

/-- The invariant is preserved along any fault-free well-formed run. -/
theorem inv_run : ∀ {s : CastflowState} {es : List TopoEvent} {s' : CastflowState},
    OkRun s es s' → StateInv s → StateInv s' := by
  intro s es s' hrun
  induction hrun with
  | nil s0 => exact fun h => h
  | cons hok hstep hrest ih => exact fun hinv => ih (inv_step _ _ _ hinv hok hstep)

/-- C3 amended: along every fault-free run from the initial state of
connection-up and link events in which connection-ups report
duplicate-free port lists, links join two distinct routers, and every
removal event removes a currently committed adjacency with matching
ports, every registered router's igmp port set is duplicate-free and
disjoint from the ports it uses in committed adjacency entries. -/
theorem C3_amended_igmp_disjoint_nodup (es : List TopoEvent) (s' : CastflowState)
    (hrun : OkRun initState es s') :
    ∀ d r, lookup s'.routers d = some r →
      r.igmp_ports.Nodup ∧ ∀ b p, adjGet s'.adjacency d b = some p → p ∉ r.igmp_ports := by
  have hinv := inv_run hrun inv_initState
  intro d r hr
  obtain ⟨hnod, hdis, _⟩ := hinv.2.2 d r hr
  exact ⟨hnod, hdis⟩

/-- Witness for C3 amended: a three-event run (two connection-ups, one
bidirectionally confirmed link-up) reaches a state whose router 1 has the
duplicate-free igmp list [2] disjoint from its committed port 1. -/
theorem C3_amended_igmp_disjoint_nodup_witness :
    ({ connection := some 7, ports := some [1, 2], igmp_ports := [2], dpid := some 1,
        listeners := some 7, connected_at := some 100,
        connected_hosts := [] } : Router).igmp_ports.Nodup ∧
    (adjGet [((1, 2), 1), ((2, 1), 1)] 1 2 = some 1 →
      (1 : Nat) ∉
        ({ connection := some 7, ports := some [1, 2], igmp_ports := [2], dpid := some 1,
           listeners := some 7, connected_at := some 100,
           connected_hosts := [] } : Router).igmp_ports) := by
  have hrun : OkRun initState
      [TopoEvent.connUp ⟨7, 1, [1, 2]⟩ 100,
       TopoEvent.connUp ⟨8, 2, [1, 2]⟩ 101,
       TopoEvent.linkEv ⟨⟨1, 1, 2, 1⟩, false⟩ [⟨1, 1, 2, 1⟩, ⟨2, 1, 1, 1⟩]]
      { got_first_connection_up := true,
        routers := [(1, { connection := some 7, ports := some [1, 2], igmp_ports := [2],
                          dpid := some 1, listeners := some 7, connected_at := some 100,
                          connected_hosts := [] }),
                    (2, { connection := some 8, ports := some [1, 2], igmp_ports := [2],
                          dpid := some 2, listeners := some 8, connected_at := some 101,
                          connected_hosts := [] })],
        adjacency := [((1, 2), 1), ((2, 1), 1)], queryTimerArmed := true } := by
    refine @OkRun.cons initState
      { got_first_connection_up := true,
        routers := [(1, { connection := some 7, ports := some [1, 2], igmp_ports := [1, 2],
                          dpid := some 1, listeners := some 7, connected_at := some 100,
                          connected_hosts := [] })],
        adjacency := [], queryTimerArmed := true } _ _ _
      (by simp only [eventOk]; decide) rfl ?_
    refine @OkRun.cons _
      { got_first_connection_up := true,
        routers := [(1, { connection := some 7, ports := some [1, 2], igmp_ports := [1, 2],
                          dpid := some 1, listeners := some 7, connected_at := some 100,
                          connected_hosts := [] }),
                    (2, { connection := some 8, ports := some [1, 2], igmp_ports := [1, 2],
                          dpid := some 2, listeners := some 8, connected_at := some 101,
                          connected_hosts := [] })],
        adjacency := [], queryTimerArmed := true } _ _ _
      (by simp only [eventOk]; decide) rfl ?_
    refine @OkRun.cons _ _ _ _ _ ⟨by decide, fun h => Bool.noConfusion h⟩ rfl (OkRun.nil _)
  have h := C3_amended_igmp_disjoint_nodup _ _ hrun 1
    { connection := some 7, ports := some [1, 2], igmp_ports := [2], dpid := some 1,
      listeners := some 7, connected_at := some 100, connected_hosts := [] } rfl
  exact ⟨h.1, fun hadj => h.2 2 1 hadj⟩
